import Mathlib

/-
  Shallow embedding of the magi-assistant-gm event classifier and
  session-lifecycle state machine (src/src/reasoning/triggers.ts v3,
  src/src/state/pacing.ts, and the orchestrator glue in src/src/index.ts).

  Conventions:
  * all wall-clock instants and durations are Int milliseconds
    (the source uses `Date.now()` numbers and ISO strings; ISO strings are
    chronologically ordered, so event timestamps are modelled as Int ms);
  * JavaScript regular expressions used by the classifier are built from a
    small fixed set of constructs (literals, alternation of literals,
    one-or-more-whitespace, word boundary); they are modelled by an
    executable token matcher with JS `\b` / `\s` / `\w` semantics;
  * external I/O (the async wiki cache build, LLM calls, chat delivery) is
    out of scope per the spec; its only classifier-visible effects
    (setNpcCache / setSceneIndex) are modelled as explicit inputs.
-/

namespace Magi

-- ── Core enumerations and data contracts (src/types/index.ts) ──────────────

inductive AssistantState
  | PREGAME
  | ACTIVE
  | SLEEP
deriving DecidableEq, Repr

/-- TriggerPriority enum values: P1 = 1 (most urgent) … P4 = 4. -/
def priP1 : Nat := 1
def priP2 : Nat := 2
def priP3 : Nat := 3
def priP4 : Nat := 4

/-- TriggerEvent. `data` is an opaque string map payload; `timestamp`
is in ms (ISO strings in the source, which order chronologically). -/
structure TriggerEvent where
  type : String
  priority : Nat
  source : String
  data : List (String × String)
  timestamp : Int
deriving DecidableEq, Repr

/-- TriggerBatch; `flushedAt` is the flush instant in ms. -/
structure TriggerBatch where
  events : List TriggerEvent
  flushedAt : Int
deriving DecidableEq, Repr

structure NpcCacheEntry where
  key : String
  display_name : String
  pronunciation : String
  brief : String
  full_card : String
  aliases : List String
  served : Bool
  last_served_at : Option Int
deriving DecidableEq, Repr

structure SceneIndexEntry where
  id : String
  title : String
  card : String
  keywords : List String
  npcs : List String
  served : Bool
  served_at : Option Int
deriving DecidableEq, Repr

-- ── JS regex fragment model ────────────────────────────────────────────────

/-- JS `\w` word character: `[A-Za-z0-9_]`. -/
def isWordChar (c : Char) : Bool :=
  (('a' ≤ c) && (c ≤ 'z')) || (('A' ≤ c) && (c ≤ 'Z')) ||
  (('0' ≤ c) && (c ≤ '9')) || (c = '_')

/-- JS `\s` whitespace (the ASCII part, which is all the transcripts use). -/
def isSpaceChar (c : Char) : Bool :=
  (c = ' ') || (c = '\t') || (c = '\n') || (c = '\x0d') ||
  (c = '\x0b') || (c = '\x0c')

/-- The regex constructs appearing in the classifier's patterns:
a literal run, an alternation of literal runs, `\s+`, and `\b`. -/
inductive Token
  | lit (w : List Char)
  | alt (ws : List (List Char))
  | ws
  | wb
deriving Repr

/-- Whether position `i` of `s` holds a word character (false out of range). -/
def wordCharAt (s : List Char) (i : Nat) : Bool :=
  match s.get? i with
  | some c => isWordChar c
  | none => false

/-- JS `\b` at position `i` (between `s[i-1]` and `s[i]`): exactly one
side is a word character. -/
def boundaryAt (s : List Char) (i : Nat) : Bool :=
  (decide (0 < i) && wordCharAt s (i - 1)) != wordCharAt s i

/-- The literal `w` occurs at position `i` of `s`. -/
def litAt (s : List Char) (i : Nat) (w : List Char) : Bool :=
  decide (w <+: s.drop i)

/-- Length of the maximal whitespace run starting the list. -/
def spaceRun : List Char → Nat
  | [] => 0
  | c :: cs => if isSpaceChar c then spaceRun cs + 1 else 0

/-- Match the token sequence starting exactly at position `i` of `s`.
`\s+` is resolved by trying every nonempty prefix of the whitespace run,
which is equivalent to backtracking regex semantics for a `test()` call. -/
def matchFrom (s : List Char) : List Token → Nat → Bool
  | [], _ => true
  | Token.lit w :: ts, i => litAt s i w && matchFrom s ts (i + w.length)
  | Token.alt ws :: ts, i =>
      ws.any fun w => litAt s i w && matchFrom s ts (i + w.length)
  | Token.wb :: ts, i => boundaryAt s i && matchFrom s ts i
  | Token.ws :: ts, i =>
      (List.range (spaceRun (s.drop i))).any fun k => matchFrom s ts (i + k + 1)

/-- `pattern.test(text)`: the token sequence matches at some position. -/
def tokensMatch (toks : List Token) (s : List Char) : Bool :=
  (List.range (s.length + 1)).any fun i => matchFrom s toks i

/-- Lowercased character list of a string (JS `toLowerCase()` on the
ASCII transcripts in scope). -/
def lowerChars (s : String) : List Char :=
  s.data.map Char.toLower

/-- JS `String.prototype.trim()` (over the ASCII whitespace in scope). -/
def jsTrim (s : String) : String :=
  ⟨((s.data.dropWhile isSpaceChar).reverse.dropWhile isSpaceChar).reverse⟩

/-- Emptiness of a string via its character list. -/
def strIsEmpty (s : String) : Bool :=
  s.data.isEmpty

/-- `Array.prototype.join(sep)`. -/
def joinSep (sep : String) : List String → String
  | [] => ""
  | [s] => s
  | s :: rest => ⟨s.data ++ sep.data ++ (joinSep sep rest).data⟩

/-- `wordBoundaryRegex(term).test(text)` — triggers.ts builds
`new RegExp("\\b" + escaped + "\\b")` from the escaped literal term;
every call site tests it against an already-lowercased text. -/
def wordBoundaryMatch (term : List Char) (textLower : List Char) : Bool :=
  tokensMatch [Token.wb, Token.lit term, Token.wb] textLower

-- ── Keyword pattern tables (triggers.ts, top of file) ──────────────────────

/-- P1_KEYWORDS, tokenized. All patterns are case-insensitive and
`isP1Question` additionally lowercases its input first. -/
def p1Keywords : List (List Token) :=
  [ [Token.lit "what".data, Token.ws, Token.lit "should".data],
    [Token.lit "how".data, Token.ws, Token.lit "does".data],
    [Token.lit "remind".data, Token.ws, Token.lit "me".data],
    [Token.lit "what".data, Token.alt ["\x27s".data, " is".data], Token.ws,
      Token.lit "the".data, Token.ws, Token.lit "rule".data],
    [Token.lit "what".data, Token.alt ["\x27s".data, " is".data], Token.ws,
      Token.lit "the".data, Token.ws, Token.lit "name".data, Token.ws,
      Token.lit "of".data],
    [Token.lit "can".data, Token.ws,
      Token.alt ["i".data, "they".data, "we".data, "he".data, "she".data],
      Token.ws, Token.alt ["do".data, "use".data, "invoke".data]],
    [Token.lit "how".data, Token.ws,
      Token.alt ["do".data, "does".data, "should".data], Token.ws,
      Token.alt ["i".data, "we".data]],
    [Token.lit "who".data, Token.ws, Token.lit "is".data],
    [Token.lit "where".data, Token.ws, Token.lit "is".data],
    [Token.lit "tell".data, Token.ws, Token.lit "me".data, Token.ws,
      Token.lit "about".data] ]

/-- SCENE_TRANSITION_KEYWORDS, tokenized (case-insensitive with `\b`). -/
def sceneTransitionKeywords : List (List Token) :=
  [ [Token.wb, Token.lit "next".data, Token.ws, Token.lit "scene".data, Token.wb],
    [Token.wb, Token.lit "meanwhile".data, Token.wb],
    [Token.wb, Token.lit "cut".data, Token.ws, Token.lit "to".data, Token.wb],
    [Token.wb, Token.lit "scene".data, Token.ws,
      Token.alt ["change".data, "transition".data, "shift".data], Token.wb],
    [Token.wb, Token.lit "back".data, Token.ws, Token.lit "at".data, Token.wb],
    [Token.wb, Token.lit "elsewhere".data, Token.wb] ]

/-- ACT_TRANSITION_KEYWORDS, tokenized. -/
def actTransitionKeywords : List (List Token) :=
  [ [Token.wb, Token.lit "next".data, Token.ws, Token.lit "act".data, Token.wb],
    [Token.wb, Token.lit "act".data, Token.ws,
      Token.alt ["two".data, "three".data, "2".data, "3".data, "ii".data,
        "iii".data], Token.wb],
    [Token.wb, Token.lit "intermission".data, Token.wb] ]

/-- isP1Question: trim + lowercase, then test every P1 pattern. -/
def isP1Question (text : String) : Bool :=
  p1Keywords.any fun p => tokensMatch p (lowerChars (jsTrim text))

/-- isSceneTransitionKeyword (case-insensitive flag modelled by
lowercasing text and patterns together). -/
def isSceneTransitionKeyword (text : String) : Bool :=
  sceneTransitionKeywords.any fun p => tokensMatch p (lowerChars text)

/-- isActTransitionKeyword. -/
def isActTransitionKeyword (text : String) : Bool :=
  actTransitionKeywords.any fun p => tokensMatch p (lowerChars text)

-- ── Pacing state (src/state/pacing.ts, src/types/index.ts) ─────────────────

structure Timing where
  started_at : Option Int
  planned_max_minutes : Int
  elapsed_minutes : Int
deriving DecidableEq, Repr

structure PacingState where
  session_start : Option Int
  current_act : Int
  current_scene : String
  current_thread : String
  act_timing : Timing
  scene_timing : Timing
  next_planned_beat : String
  spotlight_debt : List (String × Int)
  players_without_recent_spotlight : List String
  engagement_signals : List (String × String)
  separation_status : String
  climax_proximity : String
  planted_seeds : List (String × String × Bool)
  open_threads : List String
  assistant_state : AssistantState
  activation_source : Option String
  session_end_time : Option Int
  npc_cache_status : String
  scene_index_status : String
deriving DecidableEq, Repr

def createInitialPacingState : PacingState :=
  { session_start := none
    current_act := 1
    current_scene := ""
    current_thread := ""
    act_timing := { started_at := none, planned_max_minutes := 0, elapsed_minutes := 0 }
    scene_timing := { started_at := none, planned_max_minutes := 0, elapsed_minutes := 0 }
    next_planned_beat := ""
    spotlight_debt := []
    players_without_recent_spotlight := []
    engagement_signals := []
    separation_status := "NORMAL"
    climax_proximity := "NORMAL"
    planted_seeds := []
    open_threads := []
    assistant_state := AssistantState.PREGAME
    activation_source := none
    session_end_time := none
    npc_cache_status := "idle"
    scene_index_status := "idle" }

/-- PacingStateManager: the pacing record plus the per-scene
"overrun already alerted" set. -/
structure PacingManager where
  state : PacingState
  sceneOverrunFired : List String
deriving DecidableEq, Repr

namespace PacingManager

def transitionTo (pm : PacingManager) (newState : AssistantState) : PacingManager :=
  { pm with state := { pm.state with assistant_state := newState } }

def setActivationSource (pm : PacingManager) (source : String) : PacingManager :=
  { pm with state := { pm.state with activation_source := some source } }

def setSessionEndTime (pm : PacingManager) (t : Option Int) : PacingManager :=
  { pm with state := { pm.state with session_end_time := t } }

def startSession (pm : PacingManager) (now : Int) : PacingManager :=
  { pm with state := { pm.state with
      session_start := some now
      assistant_state := AssistantState.PREGAME
      activation_source := none
      npc_cache_status := "idle"
      scene_index_status := "idle" } }

/-- `Math.round(x / 60000)` on an Int ms value: floor((x + 30000) / 60000). -/
def roundMinutes (x : Int) : Int :=
  Int.fdiv (x + 30000) 60000

/-- `Math.round(x / 1000)` on an Int ms value. -/
def roundSeconds (x : Int) : Int :=
  Int.fdiv (x + 500) 1000

def updateElapsed (pm : PacingManager) (now : Int) : PacingManager :=
  let st := pm.state
  let st :=
    match st.act_timing.started_at with
    | some start =>
        { st with act_timing :=
            { st.act_timing with elapsed_minutes := roundMinutes (now - start) } }
    | none => st
  let st :=
    match st.scene_timing.started_at with
    | some start =>
        { st with scene_timing :=
            { st.scene_timing with elapsed_minutes := roundMinutes (now - start) } }
    | none => st
  { pm with state := st }

def isSceneOverrun (pm : PacingManager) (thresholdMinutes : Int) : Bool :=
  let t := pm.state.scene_timing
  if t.planned_max_minutes ≤ 0 then false
  else decide (t.elapsed_minutes > t.planned_max_minutes + thresholdMinutes)

def hasOverrunFired (pm : PacingManager) : Bool :=
  pm.sceneOverrunFired.contains pm.state.current_scene

def markOverrunFired (pm : PacingManager) : PacingManager :=
  if pm.sceneOverrunFired.contains pm.state.current_scene then pm
  else { pm with sceneOverrunFired := pm.state.current_scene :: pm.sceneOverrunFired }

def advanceScene (pm : PacingManager) (sceneName : String) (plannedMinutes : Int)
    (now : Int) : PacingManager :=
  { pm with
    state := { pm.state with
      current_scene := sceneName
      scene_timing :=
        { started_at := some now, planned_max_minutes := plannedMinutes,
          elapsed_minutes := 0 } }
    sceneOverrunFired := pm.sceneOverrunFired.filter (· != sceneName) }

def advanceAct (pm : PacingManager) (actNumber : Int) (plannedMinutes : Int)
    (now : Int) : PacingManager :=
  { pm with
    state := { pm.state with
      current_act := actNumber
      act_timing :=
        { started_at := some now, planned_max_minutes := plannedMinutes,
          elapsed_minutes := 0 } }
    sceneOverrunFired := [] }

def setThread (pm : PacingManager) (thread : String) : PacingManager :=
  { pm with state := { pm.state with current_thread := thread } }

def setNextBeat (pm : PacingManager) (beat : String) : PacingManager :=
  { pm with state := { pm.state with next_planned_beat := beat } }

/-- Association-list write with JS object semantics: overwrite in place
if the key exists, else append. -/
def recordSet (l : List (String × Int)) (k : String) (v : Int) :
    List (String × Int) :=
  if l.any (·.1 == k) then l.map fun kv => if kv.1 == k then (k, v) else kv
  else l ++ [(k, v)]

def recordSetStr (l : List (String × String)) (k : String) (v : String) :
    List (String × String) :=
  if l.any (·.1 == k) then l.map fun kv => if kv.1 == k then (k, v) else kv
  else l ++ [(k, v)]

def setSpotlight (pm : PacingManager) (player : String) (debt : Int) : PacingManager :=
  let newDebt := recordSet pm.state.spotlight_debt player debt
  { pm with state := { pm.state with
      spotlight_debt := newDebt
      players_without_recent_spotlight :=
        (newDebt.filter fun kv => decide (kv.2 > 0)).map (·.1) } }

def setEngagement (pm : PacingManager) (player : String) (level : String) : PacingManager :=
  { pm with state := { pm.state with
      engagement_signals := recordSetStr pm.state.engagement_signals player level } }

def setSeparation (pm : PacingManager) (status : String) : PacingManager :=
  { pm with state := { pm.state with separation_status := status } }

def setClimaxProximity (pm : PacingManager) (proximity : String) : PacingManager :=
  { pm with state := { pm.state with climax_proximity := proximity } }

def addSeed (pm : PacingManager) (name scene : String) : PacingManager :=
  { pm with state := { pm.state with
      planted_seeds := pm.state.planted_seeds ++ [(name, scene, false)] } }

end PacingManager

-- ── Configuration surface (src/config.ts fields the core reads) ────────────

structure Config where
  minAdviceIntervalSeconds : Int
  eventBatchWindowSeconds : Int
  sceneOverrunThresholdMinutes : Int
  activeSilenceSeconds : Int
  sleepSilenceMinutes : Int
  sessionEndTime : Option String
  convergenceGateMinutes : Int
  denouementGateMinutes : Int
  autoActiveEnabled : Bool
  autoActiveWindowMinutes : Int
  autoActiveThreshold : Nat
  autoActiveMinTermLength : Nat
  hesitationSilenceSeconds : Int
  hesitationKeywords : List String
  gmIdentifier : String
deriving Repr

/-- The source defaults (config.ts `getConfig`). -/
def defaultConfig : Config :=
  { minAdviceIntervalSeconds := 180
    eventBatchWindowSeconds := 30
    sceneOverrunThresholdMinutes := 3
    activeSilenceSeconds := 90
    sleepSilenceMinutes := 15
    sessionEndTime := none
    convergenceGateMinutes := 45
    denouementGateMinutes := 20
    autoActiveEnabled := true
    autoActiveWindowMinutes := 5
    autoActiveThreshold := 3
    autoActiveMinTermLength := 4
    hesitationSilenceSeconds := 5
    hesitationKeywords :=
      ["what\x27s the", "uh", "um", "his name", "her name", "their name",
       "the thing", "remind me", "i forget"]
    gmIdentifier := "" }

def Config.batchWindowMs (cfg : Config) : Int := cfg.eventBatchWindowSeconds * 1000
def Config.minIntervalMs (cfg : Config) : Int := cfg.minAdviceIntervalSeconds * 1000
def Config.silenceThresholdMs (cfg : Config) : Int := cfg.activeSilenceSeconds * 1000
def Config.sleepThresholdMs (cfg : Config) : Int := cfg.sleepSilenceMinutes * 60000
def Config.autoActiveWindowMs (cfg : Config) : Int := cfg.autoActiveWindowMinutes * 60000
def Config.hesitationSilenceMs (cfg : Config) : Int := cfg.hesitationSilenceSeconds * 1000

/-- Environment glue: `parseSessionEndTime` reads the local wall clock and
time zone (`Date.setHours`), so it is modelled as an explicit parameter
`String → Int → Option Int` (raw text and current instant to parsed ms). -/
structure Env where
  parseSessionEndTime : String → Int → Option Int

/-- A transcript segment as fed to `onTranscriptUpdate`. -/
structure Segment where
  text : String
  userId : Option String
  displayName : Option String
  speakerLabel : Option String
  timestamp : Int
deriving DecidableEq, Repr

inductive GmCommandType
  | act
  | scene
  | spotlight
  | engagement
  | separation
  | climax
  | seed
  | sleep
  | wake
  | endtime
  | npc
deriving DecidableEq, Repr

structure GmCommand where
  type : GmCommandType
  args : List String
deriving DecidableEq, Repr

/-- JS `parseInt(s, 10)`: skip leading whitespace, optional sign, then the
maximal run of decimal digits; NaN (`none`) when no digit follows. -/
def parseIntJS (s : String) : Option Int :=
  let cs := s.data.dropWhile fun c => isSpaceChar c
  let (neg, cs) :=
    match cs with
    | '-' :: rest => (true, rest)
    | '+' :: rest => (false, rest)
    | _ => (false, cs)
  let digits := cs.takeWhile fun c => c.isDigit
  if digits.isEmpty then none
  else
    let n := digits.foldl (fun acc c => acc * 10 + (c.toNat - '0'.toNat)) 0
    some (if neg then -(n : Int) else (n : Int))

-- ── Activation dictionary (triggers.ts buildActivationDictionary) ──────────

structure ActivationEntry where
  term : String
  canonical : String
deriving DecidableEq, Repr

/-- `Map.set` with JS semantics: an existing key keeps its position and is
overwritten, a fresh key is appended. -/
def dictSet (d : List ActivationEntry) (term canonical : String) :
    List ActivationEntry :=
  if d.any (·.term == term) then
    d.map fun e => if e.term == term then { term := term, canonical := canonical } else e
  else d ++ [{ term := term, canonical := canonical }]

def dictHas (d : List ActivationEntry) (term : String) : Bool :=
  d.any (·.term == term)

/-- buildActivationDictionary: search terms are the garbled keys and the
canonical values of the fuzzy table, filtered by minimum term length. -/
def buildActivationDictionary (fuzzyTable : List (String × String))
    (minTermLength : Nat) : List ActivationEntry :=
  fuzzyTable.foldl
    (fun d kv =>
      let d := if kv.1.length ≥ minTermLength then dictSet d kv.1 kv.2 else d
      if kv.2.length ≥ minTermLength && !(dictHas d kv.2) then dictSet d kv.2 kv.2
      else d)
    []

-- ── Detector state (TriggerDetector fields) ────────────────────────────────

structure RecentSeg where
  userId : String
  timestamp : Int
deriving DecidableEq, Repr

structure ActivationHit where
  canonical : String
  timestamp : Int
deriving DecidableEq, Repr

structure SceneMatchSt where
  keywords : List String
  windowStart : Int
deriving DecidableEq, Repr

/-- TriggerDetector mutable state. Timer handles (`setTimeout` results)
are modelled as the scheduled firing instant. -/
structure Detector where
  pendingEvents : List TriggerEvent
  batchTimer : Option Int
  lastFlushTime : Int
  deferredFlushTimer : Option Int
  lastGmSpeechTime : Int
  silenceAlertFired : Bool
  lastHesitationTime : Int
  lastHesitationText : String
  hesitationFired : Bool
  recentSegments : List RecentSeg
  fuzzyTable : List (String × String)
  activationDict : List ActivationEntry
  activationWindow : List ActivationHit
  npcCache : List NpcCacheEntry
  sceneIndex : List SceneIndexEntry
  sceneMatchState : List (String × SceneMatchSt)
  convergenceGateFired : Bool
  convergenceEscalationFired : Bool
  denouementGateFired : Bool
deriving DecidableEq, Repr

/-- Constructor state of a TriggerDetector built over a fuzzy table. -/
def initialDetector (cfg : Config) (fuzzyTable : List (String × String)) : Detector :=
  { pendingEvents := []
    batchTimer := none
    lastFlushTime := 0
    deferredFlushTimer := none
    lastGmSpeechTime := 0
    silenceAlertFired := false
    lastHesitationTime := 0
    lastHesitationText := ""
    hesitationFired := false
    recentSegments := []
    fuzzyTable := fuzzyTable
    activationDict := buildActivationDictionary fuzzyTable cfg.autoActiveMinTermLength
    activationWindow := []
    npcCache := []
    sceneIndex := []
    sceneMatchState := []
    convergenceGateFired := false
    convergenceEscalationFired := false
    denouementGateFired := false }

def MAX_PENDING_EVENTS : Nat := 100
def FLOWING_RP_MIN_SPEAKERS : Nat := 2
def FLOWING_RP_MIN_SEGMENTS : Nat := 4
def FLOWING_RP_WINDOW_MS : Int := 60000
def SCENE_MATCH_WINDOW_MS : Int := 180000

/-- Outputs observable outside the classifier: flushed batches and
`activated` signals with their source tag. -/
inductive Output
  | batch (b : TriggerBatch)
  | activated (source : String)
deriving DecidableEq, Repr

-- ── Arbitration queue (flush / addEvent) ───────────────────────────────────

/-- Insertion into a list sorted by (priority ascending, timestamp
ascending): models the stable `Array.sort` comparator in `flush`. -/
def insertSorted (e : TriggerEvent) : List TriggerEvent → List TriggerEvent
  | [] => [e]
  | x :: xs =>
      if x.priority < e.priority ||
          (x.priority == e.priority && decide (x.timestamp ≤ e.timestamp)) then
        x :: insertSorted e xs
      else e :: x :: xs

def sortEvents (l : List TriggerEvent) : List TriggerEvent :=
  l.foldr insertSorted []

/-- The `lowestIdx` scan in addEvent: first index whose priority number is
maximal, found by a strict-greater update from index 1 upward. -/
def lowestAux : List TriggerEvent → Nat → Nat → Nat → Nat
  | [], _, bestIdx, _ => bestIdx
  | e :: rest, i, bestIdx, bestPrio =>
      if bestPrio < e.priority then lowestAux rest (i + 1) i e.priority
      else lowestAux rest (i + 1) bestIdx bestPrio

def lowestPriorityIdx : List TriggerEvent → Nat
  | [] => 0
  | e :: rest => lowestAux rest 1 0 e.priority

/-- flush(): cooldown arbitration and batch emission.
Returns the updated detector and the emitted outputs. -/
def flush (cfg : Config) (d : Detector) (now : Int) : Detector × List Output :=
  if d.pendingEvents.isEmpty then (d, [])
  else
    let timeSinceLastFlush := now - d.lastFlushTime
    let cooldownExempt :=
      d.pendingEvents.any fun e => e.priority == priP1 || e.priority == priP2
    if !cooldownExempt && decide (timeSinceLastFlush < cfg.minIntervalMs) then
      if d.deferredFlushTimer.isNone then
        let delay := cfg.minIntervalMs - timeSinceLastFlush
        ({ d with deferredFlushTimer := some (now + delay) }, [])
      else (d, [])
    else
      let d := { d with batchTimer := none }
      let batch : TriggerBatch :=
        { events := sortEvents d.pendingEvents, flushedAt := now }
      ({ d with pendingEvents := [], lastFlushTime := now },
        [Output.batch batch])

/-- The `deferredFlushTimer` callback: clears the handle then flushes.
A no-op unless the timer is scheduled for exactly `now`. -/
def deferredFire (cfg : Config) (d : Detector) (now : Int) : Detector × List Output :=
  match d.deferredFlushTimer with
  | some t =>
      if t == now then flush cfg { d with deferredFlushTimer := none } now
      else (d, [])
  | none => (d, [])

/-- The `batchTimer` callback: clears the handle then flushes.
A no-op unless the timer is scheduled for exactly `now`. -/
def batchTimerFireFn (cfg : Config) (d : Detector) (now : Int) : Detector × List Output :=
  match d.batchTimer with
  | some t =>
      if t == now then flush cfg { d with batchTimer := none } now
      else (d, [])
  | none => (d, [])

/-- addEvent(event): state gating, capacity cap, P1 immediate flush,
batch-window start. `st` is the assistant state read from the pacing
manager at call time. -/
def addEvent (cfg : Config) (st : AssistantState) (d : Detector)
    (ev : TriggerEvent) (now : Int) : Detector × List Output :=
  if (st == AssistantState.PREGAME || st == AssistantState.SLEEP) &&
      ev.priority != priP1 then
    (d, [])
  else
    let capped :=
      if d.pendingEvents.length ≥ MAX_PENDING_EVENTS then
        let lowestIdx := lowestPriorityIdx d.pendingEvents
        match d.pendingEvents.get? lowestIdx with
        | some lowest =>
            if ev.priority < lowest.priority then
              some (d.pendingEvents.eraseIdx lowestIdx)
            else none
        | none => none
      else some d.pendingEvents
    match capped with
    | none => (d, [])
    | some pending =>
        let d := { d with pendingEvents := pending ++ [ev] }
        if ev.priority == priP1 then flush cfg d now
        else
          match d.batchTimer with
          | some _ => (d, [])
          | none => ({ d with batchTimer := some (now + cfg.batchWindowMs) }, [])

-- ── Sliding-window pruning ─────────────────────────────────────────────────

/-- The flowing-RP window prune at the end of `onTranscriptUpdate`:
keep entries strictly newer than the cutoff. -/
def pruneRecent (cutoff : Int) (l : List RecentSeg) : List RecentSeg :=
  l.filter fun s => decide (s.timestamp > cutoff)

/-- The activation-window prune inside `checkAutoActive`. -/
def pruneActivation (cutoff : Int) (l : List ActivationHit) : List ActivationHit :=
  l.filter fun e => decide (e.timestamp > cutoff)

/-- isFlowingRP(): at least FLOWING_RP_MIN_SEGMENTS segments from at least
FLOWING_RP_MIN_SPEAKERS distinct speakers within the rolling window. -/
def isFlowingRP (d : Detector) (now : Int) : Bool :=
  let recent := pruneRecent (now - FLOWING_RP_WINDOW_MS) d.recentSegments
  if recent.length < FLOWING_RP_MIN_SEGMENTS then false
  else decide ((recent.map (·.userId)).dedup.length ≥ FLOWING_RP_MIN_SPEAKERS)

-- ── v3 auto-ACTIVE detection (checkAutoActive) ─────────────────────────────

/-- The hits pushed into the activation window for one segment: one entry
per dictionary term whose word-boundary pattern matches the lowercased
text (terms were lowercased when the fuzzy table was loaded). -/
def activationMatches (dict : List ActivationEntry) (textLower : List Char)
    (now : Int) : List ActivationHit :=
  dict.filterMap fun e =>
    if wordBoundaryMatch e.term.data textLower then
      some { canonical := e.canonical, timestamp := now }
    else none

/-- The rolling activation window after one checkAutoActive update:
matches pushed, then entries outside the window pruned. -/
def autoWindowAfter (cfg : Config) (d : Detector) (text : String) (now : Int) :
    List ActivationHit :=
  pruneActivation (now - cfg.autoActiveWindowMs)
    (d.activationWindow ++ activationMatches d.activationDict (lowerChars text) now)

/-- `new Set(window.map(e => e.canonical)).size`. -/
def distinctCanonicals (w : List ActivationHit) : Nat :=
  (w.map fun h => h.canonical).dedup.length

/-- checkAutoActive(text, now): push matches, prune the rolling window,
then raise the activation signal (and clear the window) when the count of
distinct canonical terms reaches the threshold. The Bool is the
`emit('activated', 'transcript')` call. -/
def checkAutoActive (cfg : Config) (d : Detector) (text : String) (now : Int) :
    Detector × Bool :=
  let window := autoWindowAfter cfg d text now
  if distinctCanonicals window ≥ cfg.autoActiveThreshold then
    ({ d with activationWindow := [] }, true)
  else
    ({ d with activationWindow := window }, false)

-- ── v3 NPC first-appearance detection ──────────────────────────────────────

/-- Does this segment mention the NPC: a word-boundary match of any alias,
or of any fuzzy-table garbled form whose canonical equals the NPC key. -/
def npcTextMatch (fuzzyTable : List (String × String)) (npc : NpcCacheEntry)
    (textLower : List Char) : Bool :=
  npc.aliases.any (fun al => wordBoundaryMatch al.data textLower) ||
  fuzzyTable.any fun gc =>
    gc.2 == npc.key && wordBoundaryMatch gc.1.data textLower

/-- One iteration of the `for (const npc of this.npcCache)` loop. -/
def npcStep (cfg : Config) (st : AssistantState) (textLower : List Char)
    (ts now : Int) (npc : NpcCacheEntry) (d : Detector) :
    NpcCacheEntry × Detector × List Output :=
  if npc.served then (npc, d, [])
  else if npcTextMatch d.fuzzyTable npc textLower then
    let npc := { npc with served := true, last_served_at := some now }
    let ev : TriggerEvent :=
      { type := "npc_first_appearance", priority := priP2, source := "npc-cache",
        data := [("npc_key", npc.key), ("npc_name", npc.display_name),
                 ("npc_brief", npc.brief), ("npc_pronunciation", npc.pronunciation),
                 ("npc_card", npc.full_card)],
        timestamp := ts }
    let r := addEvent cfg st d ev now
    (npc, r.1, r.2)
  else (npc, d, [])

def npcLoop (cfg : Config) (st : AssistantState) (textLower : List Char)
    (ts now : Int) : List NpcCacheEntry → Detector →
    List NpcCacheEntry × Detector × List Output
  | [], d => ([], d, [])
  | npc :: rest, d =>
      let r := npcStep cfg st textLower ts now npc d
      let r2 := npcLoop cfg st textLower ts now rest r.2.1
      (r.1 :: r2.1, r2.2.1, r.2.2 ++ r2.2.2)

/-- checkNpcFirstAppearance(text, timestamp). -/
def checkNpcFirstAppearance (cfg : Config) (st : AssistantState) (d : Detector)
    (text : String) (ts now : Int) : Detector × List Output :=
  let textLower := lowerChars text
  let r := npcLoop cfg st textLower ts now d.npcCache d
  ({ r.2.1 with npcCache := r.1 }, r.2.2)

-- ── v3 scene keyword matching ──────────────────────────────────────────────

def mapGetScene (m : List (String × SceneMatchSt)) (k : String) :
    Option SceneMatchSt :=
  (m.find? fun kv => kv.1 == k).map (·.2)

def mapSetScene (m : List (String × SceneMatchSt)) (k : String)
    (v : SceneMatchSt) : List (String × SceneMatchSt) :=
  if m.any (·.1 == k) then m.map fun kv => if kv.1 == k then (k, v) else kv
  else m ++ [(k, v)]

def mapDeleteScene (m : List (String × SceneMatchSt)) (k : String) :
    List (String × SceneMatchSt) :=
  m.filter fun kv => kv.1 != k

/-- `Set.add` over an insertion-ordered set modelled as a dedup list. -/
def setAddAll (ks : List String) : List String → List String
  | [] => ks
  | kw :: rest => setAddAll (if ks.contains kw then ks else ks ++ [kw]) rest

/-- One iteration of the scene-index loop in checkSceneKeywordMatch. -/
def sceneStep (cfg : Config) (st : AssistantState) (textLower : List Char)
    (ts now : Int) (scene : SceneIndexEntry) (d : Detector) :
    SceneIndexEntry × Detector × List Output :=
  if scene.served then (scene, d, [])
  else
    let matchedKeywords :=
      scene.keywords.filter fun kw => wordBoundaryMatch kw.data textLower
    if matchedKeywords.isEmpty then (scene, d, [])
    else
      let matchState : SceneMatchSt :=
        match mapGetScene d.sceneMatchState scene.id with
        | some ms =>
            if decide (now - ms.windowStart > SCENE_MATCH_WINDOW_MS) then
              { keywords := [], windowStart := now }
            else ms
        | none => { keywords := [], windowStart := now }
      let matchState :=
        { matchState with keywords := setAddAll matchState.keywords matchedKeywords }
      if matchState.keywords.length ≥ 2 then
        let scene := { scene with served := true, served_at := some now }
        let d := { d with sceneMatchState := mapDeleteScene d.sceneMatchState scene.id }
        let ev : TriggerEvent :=
          { type := "scene_transition_detected", priority := priP2,
            source := "scene-index",
            data := [("scene_id", scene.id), ("scene_title", scene.title),
                     ("scene_card", scene.card),
                     ("matched_keywords", joinSep "," matchState.keywords)],
            timestamp := ts }
        let r := addEvent cfg st d ev now
        (scene, r.1, r.2)
      else
        (scene, { d with sceneMatchState := mapSetScene d.sceneMatchState scene.id matchState }, [])

def sceneLoop (cfg : Config) (st : AssistantState) (textLower : List Char)
    (ts now : Int) : List SceneIndexEntry → Detector →
    List SceneIndexEntry × Detector × List Output
  | [], d => ([], d, [])
  | scene :: rest, d =>
      let r := sceneStep cfg st textLower ts now scene d
      let r2 := sceneLoop cfg st textLower ts now rest r.2.1
      (r.1 :: r2.1, r2.2.1, r.2.2 ++ r2.2.2)

/-- checkSceneKeywordMatch(text, timestamp, now). -/
def checkSceneKeywordMatch (cfg : Config) (st : AssistantState) (d : Detector)
    (text : String) (ts now : Int) : Detector × List Output :=
  let textLower := lowerChars text
  let r := sceneLoop cfg st textLower ts now d.sceneIndex d
  ({ r.2.1 with sceneIndex := r.1 }, r.2.2)

-- ── v3 pacing gates (checkPacingGates) ─────────────────────────────────────

/-- Sequencing of two gate blocks, accumulating outputs. -/
def gateSeq (r : Detector × List Output) (f : Detector → Detector × List Output) :
    Detector × List Output :=
  ((f r.1).1, r.2 ++ (f r.1).2)

/-- The convergence-gate block of checkPacingGates. -/
def convGateStage (cfg : Config) (pm : PacingManager) (endMs now : Int)
    (d : Detector) : Detector × List Output :=
  let remainingMs := endMs - now
  let convergenceMs := cfg.convergenceGateMinutes * 60000
  if !d.convergenceGateFired && decide (remainingMs ≤ convergenceMs) &&
      decide (remainingMs > 0) then
    let d := { d with convergenceGateFired := true }
    addEvent cfg pm.state.assistant_state d
      { type := "pacing_gate_convergence", priority := priP2,
        source := "pacing-gate",
        data := [("remaining_minutes", toString (PacingManager.roundMinutes remainingMs)),
                 ("session_end_time", toString endMs),
                 ("open_threads", joinSep "," pm.state.open_threads)],
        timestamp := now } now
  else (d, [])

/-- The convergence-escalation block of checkPacingGates: reads the
convergence flag just (possibly) set by the gate block of the same
invocation. -/
def convEscStage (cfg : Config) (pm : PacingManager) (endMs now : Int)
    (d : Detector) : Detector × List Output :=
  let remainingMs := endMs - now
  let convergenceMs := cfg.convergenceGateMinutes * 60000
  if d.convergenceGateFired && !d.convergenceEscalationFired then
    let timeSinceGate := convergenceMs - remainingMs
    if decide (timeSinceGate > 10 * 60000) && decide (pm.state.current_act < 3) then
      let d := { d with convergenceEscalationFired := true }
      addEvent cfg pm.state.assistant_state d
        { type := "pacing_gate_convergence", priority := priP2,
          source := "pacing-gate",
          data := [("remaining_minutes", toString (PacingManager.roundMinutes remainingMs)),
                   ("session_end_time", toString endMs),
                   ("escalation", "true"),
                   ("current_act", toString pm.state.current_act)],
          timestamp := now } now
    else (d, [])
  else (d, [])

/-- The denouement-gate block of checkPacingGates. -/
def denGateStage (cfg : Config) (pm : PacingManager) (endMs now : Int)
    (d : Detector) : Detector × List Output :=
  let remainingMs := endMs - now
  let denouementMs := cfg.denouementGateMinutes * 60000
  if !d.denouementGateFired && decide (remainingMs ≤ denouementMs) &&
      decide (remainingMs > 0) then
    let d := { d with denouementGateFired := true }
    addEvent cfg pm.state.assistant_state d
      { type := "pacing_gate_denouement", priority := priP2,
        source := "pacing-gate",
        data := [("remaining_minutes", toString (PacingManager.roundMinutes remainingMs)),
                 ("session_end_time", toString endMs)],
        timestamp := now } now
  else (d, [])

/-- checkPacingGates(): wall-clock countdown gates against the configured
session end time. `session_end_time` is `none` when unset or unparsable
(the source stores a string and bails when `new Date` yields a non-finite
number). -/
def checkPacingGates (cfg : Config) (pm : PacingManager) (d : Detector)
    (now : Int) : Detector × List Output :=
  if pm.state.assistant_state != AssistantState.ACTIVE then (d, [])
  else
    match pm.state.session_end_time with
    | none => (d, [])
    | some endMs =>
        gateSeq (gateSeq (convGateStage cfg pm endMs now d)
          (convEscStage cfg pm endMs now))
          (denGateStage cfg pm endMs now)

-- ── v3 hesitation detection (P1-H) ─────────────────────────────────────────

/-- isHesitationKeyword: the configured keywords compiled to
case-insensitive word-boundary patterns. -/
def isHesitationKeyword (cfg : Config) (text : String) : Bool :=
  cfg.hesitationKeywords.any fun kw =>
    tokensMatch [Token.wb, Token.lit (lowerChars kw), Token.wb] (lowerChars text)

/-- checkHesitation(): fire the P1 gap-fill once if the GM's last speech
was a hesitation keyword and the configured gap has elapsed. -/
def checkHesitation (cfg : Config) (st : AssistantState) (d : Detector)
    (now : Int) : Detector × List Output :=
  if st != AssistantState.ACTIVE then (d, [])
  else if d.hesitationFired then (d, [])
  else if d.lastHesitationTime == 0 then (d, [])
  else if d.lastHesitationTime != d.lastGmSpeechTime then (d, [])
  else
    let silenceMs := now - d.lastHesitationTime
    if decide (silenceMs ≥ cfg.hesitationSilenceMs) then
      let d := { d with hesitationFired := true }
      addEvent cfg st d
        { type := "gm_hesitation", priority := priP1, source := "hesitation",
          data := [("transcript", d.lastHesitationText),
                   ("silenceSeconds", toString (PacingManager.roundSeconds silenceMs))],
          timestamp := now } now
    else (d, [])

-- ── Silence detection (P4) and ACTIVE→SLEEP ────────────────────────────────

/-- checkSilence(): the sleep transition check followed by the P4 alert,
both behind the one-shot `silenceAlertFired` guard. -/
def checkSilence (cfg : Config) (pm : PacingManager) (d : Detector)
    (now : Int) : PacingManager × Detector × List Output :=
  if pm.state.assistant_state != AssistantState.ACTIVE then (pm, d, [])
  else if d.silenceAlertFired then (pm, d, [])
  else if d.lastGmSpeechTime == 0 then (pm, d, [])
  else
    let silenceMs := now - d.lastGmSpeechTime
    if decide (silenceMs ≥ cfg.sleepThresholdMs) then
      (pm.transitionTo AssistantState.SLEEP, d, [])
    else if decide (silenceMs ≥ cfg.silenceThresholdMs) then
      if isFlowingRP d now then (pm, d, [])
      else
        let d := { d with silenceAlertFired := true }
        let r :=
          addEvent cfg pm.state.assistant_state d
            { type := "silence_detection", priority := priP4, source := "silence",
              data := [("silenceSeconds",
                toString (PacingManager.roundSeconds silenceMs))],
              timestamp := now } now
        (pm, r.1, r.2)
    else (pm, d, [])

-- ── P3 scene-overrun alert (checkPacingOverrun) ────────────────────────────

def checkPacingOverrun (cfg : Config) (pm : PacingManager) (d : Detector)
    (thresholdMinutes : Int) (now : Int) : PacingManager × Detector × List Output :=
  if pm.state.assistant_state != AssistantState.ACTIVE then (pm, d, [])
  else if pm.hasOverrunFired then (pm, d, [])
  else if pm.isSceneOverrun thresholdMinutes then
    if isFlowingRP d now then (pm, d, [])
    else
      let pm := pm.markOverrunFired
      let r :=
        addEvent cfg pm.state.assistant_state d
          { type := "pacing_alert", priority := priP3, source := "pacing",
            data := [("scene", pm.state.current_scene),
                     ("elapsed", toString pm.state.scene_timing.elapsed_minutes),
                     ("planned", toString pm.state.scene_timing.planned_max_minutes)],
            timestamp := now } now
      (pm, r.1, r.2)
  else (pm, d, [])

-- ── Orchestrator glue (src/index.ts) ───────────────────────────────────────

/-- The combined system: pacing manager plus trigger detector. The async
wiki cache build is external I/O; its classifier-visible completions are
modelled as explicit `setCaches` inputs. -/
structure Sys where
  pacing : PacingManager
  det : Detector
deriving Repr

/-- handleActivation(source): centralized transition to ACTIVE.
From SLEEP or PREGAME it transitions and stamps the activation source;
from PREGAME it additionally applies the configured session end time.
The async cache (re)build it kicks off is external I/O. -/
def handleActivation (cfg : Config) (env : Env) (source : String) (sys : Sys)
    (now : Int) : Sys :=
  let prev := sys.pacing.state.assistant_state
  if prev != AssistantState.PREGAME then
    if prev == AssistantState.SLEEP then
      { sys with pacing :=
          (sys.pacing.transitionTo AssistantState.ACTIVE).setActivationSource source }
    else sys
  else
    let pm := (sys.pacing.transitionTo AssistantState.ACTIVE).setActivationSource source
    let pm :=
      match cfg.sessionEndTime with
      | some raw =>
          match env.parseSessionEndTime raw now with
          | some endMs => pm.setSessionEndTime (some endMs)
          | none => pm
      | none => pm
    { sys with pacing := pm }

/-- JS string truthiness for command arguments. -/
def argAt (args : List String) (i : Nat) : Option String :=
  match args.get? i with
  | some s => if strIsEmpty s then none else some s
  | none => none

def toUpperStr (s : String) : String := ⟨s.data.map Char.toUpper⟩
def toLowerStr (s : String) : String := ⟨s.data.map Char.toLower⟩

/-- Reset the served flag on the first NPC whose key or alias list matches
(`npcCache.find(...)` then `npc.served = false`). -/
def npcServeReset (name : String) : List NpcCacheEntry → List NpcCacheEntry
  | [] => []
  | npc :: rest =>
      if npc.key == name || npc.aliases.contains name then
        { npc with served := false } :: rest
      else npc :: npcServeReset name rest

/-- applyGmCommand(cmd): the GM chat command switch. `/npc refresh` only
kicks off the external cache rebuild and is not modelled. -/
def applyGmCommand (cfg : Config) (env : Env) (sys : Sys) (cmd : GmCommand)
    (now : Int) : Sys :=
  match cmd.type with
  | GmCommandType.act =>
      let actNum := parseIntJS (cmd.args.headD "")
      let planned := (parseIntJS ((cmd.args.drop 1).headD "")).getD 0
      match actNum with
      | some n =>
          let sys := { sys with pacing := sys.pacing.advanceAct n planned now }
          if sys.pacing.state.assistant_state == AssistantState.PREGAME then
            handleActivation cfg env "command" sys now
          else sys
      | none => sys
  | GmCommandType.scene =>
      let lastArg := cmd.args.getLastD ""
      let isNum := !lastArg.data.isEmpty && lastArg.data.all Char.isDigit
      let planned := if cmd.args.length > 1 && isNum then (parseIntJS lastArg).getD 0 else 0
      let sceneName :=
        if cmd.args.length > 1 && isNum then joinSep " " cmd.args.dropLast
        else joinSep " " cmd.args
      let sys := { sys with pacing := sys.pacing.advanceScene sceneName planned now }
      if sys.pacing.state.assistant_state == AssistantState.PREGAME then
        handleActivation cfg env "command" sys now
      else sys
  | GmCommandType.spotlight =>
      match argAt cmd.args 0 with
      | some player =>
          let debt := (parseIntJS ((cmd.args.drop 1).headD "")).getD 0
          { sys with pacing := sys.pacing.setSpotlight player debt }
      | none => sys
  | GmCommandType.engagement =>
      match argAt cmd.args 0, argAt cmd.args 1 with
      | some player, some level =>
          { sys with pacing := sys.pacing.setEngagement player (toUpperStr level) }
      | _, _ => sys
  | GmCommandType.separation =>
      match argAt cmd.args 0 with
      | some status => { sys with pacing := sys.pacing.setSeparation (toUpperStr status) }
      | none => sys
  | GmCommandType.climax =>
      match argAt cmd.args 0 with
      | some prox => { sys with pacing := sys.pacing.setClimaxProximity (toUpperStr prox) }
      | none => sys
  | GmCommandType.seed =>
      let seedName := joinSep " " cmd.args
      if strIsEmpty seedName then sys
      else { sys with pacing := sys.pacing.addSeed seedName sys.pacing.state.current_scene }
  | GmCommandType.sleep =>
      { sys with pacing := sys.pacing.transitionTo AssistantState.SLEEP }
  | GmCommandType.wake =>
      handleActivation cfg env "command" sys now
  | GmCommandType.endtime =>
      let timeStr := joinSep " " cmd.args
      if strIsEmpty timeStr then sys
      else
        match env.parseSessionEndTime timeStr now with
        | some endMs => { sys with pacing := sys.pacing.setSessionEndTime (some endMs) }
        | none => sys
  | GmCommandType.npc =>
      match argAt cmd.args 0 with
      | some sub =>
          if toLowerStr sub == "serve" then
            let npcName := toLowerStr (joinSep " " (cmd.args.drop 1))
            { sys with det :=
                { sys.det with npcCache := npcServeReset npcName sys.det.npcCache } }
          else sys
      | none => sys

/-- The GM-speech attribution test in onTranscriptUpdate (case-insensitive
match of the configured identifier against userId, displayName or speaker
label; every speaker counts when the identifier is unset). -/
def isGmSpeech (cfg : Config) (seg : Segment) : Bool :=
  let gmId := toLowerStr cfg.gmIdentifier
  strIsEmpty gmId ||
  (match seg.userId with | some u => toLowerStr u == gmId | none => false) ||
  (match seg.displayName with | some u => toLowerStr u == gmId | none => false) ||
  (match seg.speakerLabel with | some u => toLowerStr u == gmId | none => false)

/-- GM-speech bookkeeping at the top of the segment loop: silence and
hesitation tracking plus the flowing-RP segment push. -/
def segBookkeeping (cfg : Config) (seg : Segment) (now : Int) (d : Detector) :
    Detector :=
  let gm := isGmSpeech cfg seg
  let d :=
    if gm then
      let d := { d with lastGmSpeechTime := now, silenceAlertFired := false,
                        hesitationFired := false }
      if isHesitationKeyword cfg seg.text then
        { d with lastHesitationTime := now, lastHesitationText := seg.text }
      else if (jsTrim seg.text).data.length > 0 then { d with lastHesitationTime := 0 }
      else d
    else d
  match (match seg.speakerLabel with | some s => some s | none => seg.userId) with
  | some sid => { d with recentSegments := d.recentSegments ++ [⟨sid, now⟩] }
  | none => d

/-- Sequencing of two classifier stages, accumulating outputs. -/
def seqStage (r : Sys × List Output) (f : Sys → Sys × List Output) :
    Sys × List Output :=
  ((f r.1).1, r.2 ++ (f r.1).2)

/-- The P1 explicit-question stage of the segment loop. -/
def segStageP1 (cfg : Config) (seg : Segment) (now : Int) (sys : Sys) :
    Sys × List Output :=
  if isP1Question seg.text then
    let ev : TriggerEvent :=
      { type := "gm_question", priority := priP1,
        source := (match seg.userId with | some u => u | none => "unknown"),
        data := [("transcript", seg.text)], timestamp := seg.timestamp }
    let r := addEvent cfg sys.pacing.state.assistant_state sys.det ev now
    ({ sys with det := r.1 }, r.2)
  else (sys, [])

/-- The P2 scene-transition-keyword stage (ACTIVE only, state re-read). -/
def segStageSceneKw (cfg : Config) (seg : Segment) (now : Int) (sys : Sys) :
    Sys × List Output :=
  if sys.pacing.state.assistant_state == AssistantState.ACTIVE &&
      isSceneTransitionKeyword seg.text then
    let ev : TriggerEvent :=
      { type := "scene_transition", priority := priP2, source := "transcript",
        data := [("transcript", seg.text)], timestamp := seg.timestamp }
    let r := addEvent cfg sys.pacing.state.assistant_state sys.det ev now
    ({ sys with det := r.1 }, r.2)
  else (sys, [])

/-- The P2 act-transition-keyword stage (ACTIVE only, state re-read). -/
def segStageActKw (cfg : Config) (seg : Segment) (now : Int) (sys : Sys) :
    Sys × List Output :=
  if sys.pacing.state.assistant_state == AssistantState.ACTIVE &&
      isActTransitionKeyword seg.text then
    let ev : TriggerEvent :=
      { type := "act_transition", priority := priP2, source := "transcript",
        data := [("transcript", seg.text)], timestamp := seg.timestamp }
    let r := addEvent cfg sys.pacing.state.assistant_state sys.det ev now
    ({ sys with det := r.1 }, r.2)
  else (sys, [])

/-- The NPC first-appearance stage (ACTIVE with a nonempty cache). -/
def segStageNpc (cfg : Config) (seg : Segment) (now : Int) (sys : Sys) :
    Sys × List Output :=
  if sys.pacing.state.assistant_state == AssistantState.ACTIVE &&
      sys.det.npcCache.length > 0 then
    let r :=
      checkNpcFirstAppearance cfg sys.pacing.state.assistant_state sys.det
        seg.text seg.timestamp now
    ({ sys with det := r.1 }, r.2)
  else (sys, [])

/-- The scene-index keyword stage (ACTIVE with a nonempty index). -/
def segStageScnIdx (cfg : Config) (seg : Segment) (now : Int) (sys : Sys) :
    Sys × List Output :=
  if sys.pacing.state.assistant_state == AssistantState.ACTIVE &&
      sys.det.sceneIndex.length > 0 then
    let r :=
      checkSceneKeywordMatch cfg sys.pacing.state.assistant_state sys.det
        seg.text seg.timestamp now
    ({ sys with det := r.1 }, r.2)
  else (sys, [])

/-- The P1-question, P2-keyword, NPC and scene-index detectors of the
segment loop, each re-reading the (possibly just-activated) state. -/
def segDetectors (cfg : Config) (sys : Sys) (seg : Segment) (now : Int) :
    Sys × List Output :=
  seqStage (seqStage (seqStage (seqStage
    (segStageP1 cfg seg now sys)
    (segStageSceneKw cfg seg now))
    (segStageActKw cfg seg now))
    (segStageNpc cfg seg now))
    (segStageScnIdx cfg seg now)

/-- The body of the per-segment loop in onTranscriptUpdate (v3).
`checkAutoActive`'s `activated` emission is handled synchronously by the
orchestrator (EventEmitter dispatch), so state is re-read as ACTIVE by the
later detectors of the same iteration. -/
def processSegment (cfg : Config) (env : Env) (sys : Sys) (seg : Segment)
    (now : Int) : Sys × List Output :=
  let state := sys.pacing.state.assistant_state
  let gm := isGmSpeech cfg seg
  let sys := { sys with det := segBookkeeping cfg seg now sys.det }
  let sys :=
    if state == AssistantState.SLEEP && gm then
      { sys with pacing := sys.pacing.transitionTo AssistantState.ACTIVE }
    else sys
  let r1 :=
    if state == AssistantState.PREGAME && cfg.autoActiveEnabled then
      let ca := checkAutoActive cfg sys.det seg.text now
      let sys := { sys with det := ca.1 }
      if ca.2 then
        (handleActivation cfg env "transcript" sys now, [Output.activated "transcript"])
      else (sys, [])
    else (sys, [])
  let r2 := segDetectors cfg r1.1 seg now
  (r2.1, r1.2 ++ r2.2)

def processSegments (cfg : Config) (env : Env) (sys : Sys)
    (segs : List Segment) (now : Int) : Sys × List Output :=
  match segs with
  | [] => (sys, [])
  | seg :: rest =>
      let r := processSegment cfg env sys seg now
      let r2 := processSegments cfg env r.1 rest now
      (r2.1, r.2 ++ r2.2)

/-- onTranscriptUpdate(segments): the segment loop followed by the
flowing-RP window prune. -/
def onTranscriptUpdate (cfg : Config) (env : Env) (sys : Sys)
    (segs : List Segment) (now : Int) : Sys × List Output :=
  let r := processSegments cfg env sys segs now
  let d := { r.1.det with
    recentSegments := pruneRecent (now - FLOWING_RP_WINDOW_MS) r.1.det.recentSegments }
  ({ r.1 with det := d }, r.2)

/-- onGameEvent(eventType, data): only sceneChange is meaningful. The
`activated` emission is handled synchronously by the orchestrator before
the P2 enqueue re-reads the state. -/
def onGameEvent (cfg : Config) (env : Env) (sys : Sys) (eventType : String)
    (data : List (String × String)) (now : Int) : Sys × List Output :=
  let state := sys.pacing.state.assistant_state
  if eventType == "sceneChange" then
    let r1 :=
      if state == AssistantState.PREGAME then
        (handleActivation cfg env "foundry" sys now, [Output.activated "foundry"])
      else (sys, [])
    let sys := r1.1
    let r2 :=
      if sys.pacing.state.assistant_state == AssistantState.ACTIVE then
        let ev : TriggerEvent :=
          { type := "scene_transition", priority := priP2, source := "foundry",
            data := data, timestamp := now }
        let r := addEvent cfg sys.pacing.state.assistant_state sys.det ev now
        ({ sys with det := r.1 }, r.2)
      else (sys, [])
    (r2.1, r1.2 ++ r2.2)
  else (sys, [])

-- ── The event-driven machine ───────────────────────────────────────────────

/-- One unit of work on the single-threaded event loop: externally-driven
calls (transcript poll, game event poll, GM command, cache-build
completion) and the periodic / scheduled timers. -/
inductive Input
  | transcript (segs : List Segment) (now : Int)
  | gameEvent (eventType : String) (data : List (String × String)) (now : Int)
  | gmCommand (cmd : GmCommand) (now : Int)
  | timerCheck (now : Int)
  | overrunCheck (now : Int)
  | batchTimerExpiry (now : Int)
  | deferredFlushExpiry (now : Int)
  | setCaches (npc : List NpcCacheEntry) (scenes : List SceneIndexEntry)

/-- step: dispatch one input. `timerCheck` is the 10-second interval
(checkHesitation, checkSilence, checkPacingGates, in source order);
`overrunCheck` is the 30-second pacing interval (updateElapsed then
checkPacingOverrun with the configured threshold). -/
def step (cfg : Config) (env : Env) (sys : Sys) : Input → Sys × List Output
  | Input.transcript segs now => onTranscriptUpdate cfg env sys segs now
  | Input.gameEvent eventType data now => onGameEvent cfg env sys eventType data now
  | Input.gmCommand cmd now => (applyGmCommand cfg env sys cmd now, [])
  | Input.timerCheck now =>
      let r1 := checkHesitation cfg sys.pacing.state.assistant_state sys.det now
      let sys := { sys with det := r1.1 }
      let r2 := checkSilence cfg sys.pacing sys.det now
      let sys : Sys := { pacing := r2.1, det := r2.2.1 }
      let r3 := checkPacingGates cfg sys.pacing sys.det now
      ({ sys with det := r3.1 }, r1.2 ++ r2.2.2 ++ r3.2)
  | Input.overrunCheck now =>
      let pm := sys.pacing.updateElapsed now
      let r :=
        checkPacingOverrun cfg pm sys.det cfg.sceneOverrunThresholdMinutes now
      (({ pacing := r.1, det := r.2.1 } : Sys), r.2.2)
  | Input.batchTimerExpiry now =>
      let r := batchTimerFireFn cfg sys.det now
      ({ sys with det := r.1 }, r.2)
  | Input.deferredFlushExpiry now =>
      let r := deferredFire cfg sys.det now
      ({ sys with det := r.1 }, r.2)
  | Input.setCaches npc scenes =>
      ({ sys with det := { sys.det with npcCache := npc, sceneIndex := scenes } }, [])

/-- Run over an input list, keeping only the final system. -/
def runSys (cfg : Config) (env : Env) : Sys → List Input → Sys
  | sys, [] => sys
  | sys, i :: rest => runSys cfg env (step cfg env sys i).1 rest

/-- Run over an input list, accumulating the emitted outputs. -/
def runOutputs (cfg : Config) (env : Env) : Sys → List Input → List Output
  | _, [] => []
  | sys, i :: rest =>
      let r := step cfg env sys i
      r.2 ++ runOutputs cfg env r.1 rest

/-- The startup state: `pacing.startSession()` at instant `t0` over a
freshly constructed detector holding the loaded fuzzy table. -/
def sys0 (cfg : Config) (fuzzyTable : List (String × String)) (t0 : Int) : Sys :=
  { pacing := PacingManager.startSession ⟨createInitialPacingState, []⟩ t0
    det := initialDetector cfg fuzzyTable }

/-- The assistant state of a system. -/
def stateOf (sys : Sys) : AssistantState :=
  sys.pacing.state.assistant_state

/-- A fixed trivial environment for concrete runs (no session end time
configured, so the date-parsing glue never succeeds). -/
def env0 : Env := ⟨fun _ _ => none⟩

-- ════════════════════════════════════════════════════════════════════════
-- Theorems
-- ════════════════════════════════════════════════════════════════════════

-- ── Shared output-shape lemmas ─────────────────────────────────────────────

theorem flush_outs_batch (cfg : Config) (d : Detector) (now : Int) :
    ∀ o ∈ (flush cfg d now).2, ∃ b, o = Output.batch b := by
  intro o ho
  simp only [flush] at ho
  split at ho
  · simp at ho
  · split at ho
    · split at ho <;> simp at ho
    · simp only [List.mem_singleton] at ho
      exact ⟨_, ho⟩

theorem addEvent_outs_batch (cfg : Config) (st : AssistantState) (d : Detector)
    (ev : TriggerEvent) (now : Int) :
    ∀ o ∈ (addEvent cfg st d ev now).2, ∃ b, o = Output.batch b := by
  intro o ho
  simp only [addEvent] at ho
  repeat' split at ho
  all_goals first
    | exact flush_outs_batch cfg _ now o ho
    | simp at ho

theorem npcStep_outs_batch (cfg : Config) (st : AssistantState)
    (textLower : List Char) (ts now : Int) (npc : NpcCacheEntry) (d : Detector) :
    ∀ o ∈ (npcStep cfg st textLower ts now npc d).2.2, ∃ b, o = Output.batch b := by
  intro o ho
  unfold npcStep at ho
  split at ho
  · simp at ho
  · split at ho
    · exact addEvent_outs_batch cfg st d _ now o ho
    · simp at ho

theorem npcLoop_outs_batch (cfg : Config) (st : AssistantState)
    (textLower : List Char) (ts now : Int) :
    ∀ (cache : List NpcCacheEntry) (d : Detector),
      ∀ o ∈ (npcLoop cfg st textLower ts now cache d).2.2,
        ∃ b, o = Output.batch b := by
  intro cache
  induction cache with
  | nil => intro d o ho; simp [npcLoop] at ho
  | cons npc rest ih =>
      intro d o ho
      simp only [npcLoop, List.mem_append] at ho
      rcases ho with ho | ho
      · exact npcStep_outs_batch cfg st textLower ts now npc d o ho
      · exact ih _ o ho

theorem sceneStep_outs_batch (cfg : Config) (st : AssistantState)
    (textLower : List Char) (ts now : Int) (scene : SceneIndexEntry) (d : Detector) :
    ∀ o ∈ (sceneStep cfg st textLower ts now scene d).2.2, ∃ b, o = Output.batch b := by
  intro o ho
  simp only [sceneStep] at ho
  repeat' split at ho
  all_goals first
    | exact addEvent_outs_batch cfg st _ _ now o ho
    | simp at ho

theorem sceneLoop_outs_batch (cfg : Config) (st : AssistantState)
    (textLower : List Char) (ts now : Int) :
    ∀ (index : List SceneIndexEntry) (d : Detector),
      ∀ o ∈ (sceneLoop cfg st textLower ts now index d).2.2,
        ∃ b, o = Output.batch b := by
  intro index
  induction index with
  | nil => intro d o ho; simp [sceneLoop] at ho
  | cons scene rest ih =>
      intro d o ho
      simp only [sceneLoop, List.mem_append] at ho
      rcases ho with ho | ho
      · exact sceneStep_outs_batch cfg st textLower ts now scene d o ho
      · exact ih _ o ho

theorem checkNpc_outs_batch (cfg : Config) (st : AssistantState) (d : Detector)
    (text : String) (ts now : Int) :
    ∀ o ∈ (checkNpcFirstAppearance cfg st d text ts now).2, ∃ b, o = Output.batch b := by
  intro o ho
  simp only [checkNpcFirstAppearance] at ho
  exact npcLoop_outs_batch _ _ _ _ _ _ _ o ho

theorem checkScene_outs_batch (cfg : Config) (st : AssistantState) (d : Detector)
    (text : String) (ts now : Int) :
    ∀ o ∈ (checkSceneKeywordMatch cfg st d text ts now).2, ∃ b, o = Output.batch b := by
  intro o ho
  simp only [checkSceneKeywordMatch] at ho
  exact sceneLoop_outs_batch _ _ _ _ _ _ _ o ho

/-- Case helper: outputs of an if-then-else are outputs of a branch. -/
theorem outs_batch_ite {c : Bool} {x y : Sys × List Output}
    (hx : ∀ o ∈ x.2, ∃ b, o = Output.batch b)
    (hy : ∀ o ∈ y.2, ∃ b, o = Output.batch b) :
    ∀ o ∈ (if c then x else y).2, ∃ b, o = Output.batch b := by
  cases c
  · simpa using hy
  · simpa using hx

/-- Sequencing preserves the batches-only output shape. -/
theorem seqStage_outs_batch {r : Sys × List Output} {f : Sys → Sys × List Output}
    (h1 : ∀ o ∈ r.2, ∃ b, o = Output.batch b)
    (h2 : ∀ sys, ∀ o ∈ (f sys).2, ∃ b, o = Output.batch b) :
    ∀ o ∈ (seqStage r f).2, ∃ b, o = Output.batch b := by
  intro o ho
  simp only [seqStage, List.mem_append] at ho
  rcases ho with ho | ho
  · exact h1 o ho
  · exact h2 _ o ho

theorem segStageP1_outs_batch (cfg : Config) (seg : Segment) (now : Int)
    (sys : Sys) :
    ∀ o ∈ (segStageP1 cfg seg now sys).2, ∃ b, o = Output.batch b := by
  unfold segStageP1
  exact outs_batch_ite (addEvent_outs_batch _ _ _ _ _) (by simp)

theorem segStageSceneKw_outs_batch (cfg : Config) (seg : Segment) (now : Int)
    (sys : Sys) :
    ∀ o ∈ (segStageSceneKw cfg seg now sys).2, ∃ b, o = Output.batch b := by
  unfold segStageSceneKw
  exact outs_batch_ite (addEvent_outs_batch _ _ _ _ _) (by simp)

theorem segStageActKw_outs_batch (cfg : Config) (seg : Segment) (now : Int)
    (sys : Sys) :
    ∀ o ∈ (segStageActKw cfg seg now sys).2, ∃ b, o = Output.batch b := by
  unfold segStageActKw
  exact outs_batch_ite (addEvent_outs_batch _ _ _ _ _) (by simp)

theorem segStageNpc_outs_batch (cfg : Config) (seg : Segment) (now : Int)
    (sys : Sys) :
    ∀ o ∈ (segStageNpc cfg seg now sys).2, ∃ b, o = Output.batch b := by
  unfold segStageNpc
  exact outs_batch_ite (checkNpc_outs_batch _ _ _ _ _ _) (by simp)

theorem segStageScnIdx_outs_batch (cfg : Config) (seg : Segment) (now : Int)
    (sys : Sys) :
    ∀ o ∈ (segStageScnIdx cfg seg now sys).2, ∃ b, o = Output.batch b := by
  unfold segStageScnIdx
  exact outs_batch_ite (checkScene_outs_batch _ _ _ _ _ _) (by simp)

theorem segDetectors_outs_batch (cfg : Config) (sys : Sys) (seg : Segment)
    (now : Int) :
    ∀ o ∈ (segDetectors cfg sys seg now).2, ∃ b, o = Output.batch b := by
  unfold segDetectors
  exact seqStage_outs_batch
    (seqStage_outs_batch
      (seqStage_outs_batch
        (seqStage_outs_batch (segStageP1_outs_batch cfg seg now sys)
          (segStageSceneKw_outs_batch cfg seg now))
        (segStageActKw_outs_batch cfg seg now))
      (segStageNpc_outs_batch cfg seg now))
    (segStageScnIdx_outs_batch cfg seg now)

theorem count_activated_of_batches (s : String) (l : List Output)
    (h : ∀ o ∈ l, ∃ b, o = Output.batch b) :
    l.count (Output.activated s) = 0 := by
  rw [List.count_eq_zero]
  intro hmem
  obtain ⟨b, hb⟩ := h _ hmem
  exact absurd hb (by simp)

/-- The GM-speech bookkeeping never touches the auto-activation data. -/
theorem segBookkeeping_activation_frame (cfg : Config) (seg : Segment)
    (now : Int) (d : Detector) :
    (segBookkeeping cfg seg now d).activationWindow = d.activationWindow ∧
    (segBookkeeping cfg seg now d).activationDict = d.activationDict := by
  unfold segBookkeeping
  rcases hsp : seg.speakerLabel with _ | sl <;>
    rcases hu : seg.userId with _ | u <;>
    by_cases hgm : isGmSpeech cfg seg <;>
    by_cases hh : isHesitationKeyword cfg seg.text <;>
    by_cases ht : (jsTrim seg.text).length > 0 <;>
    simp [hsp, hu, hgm, hh, ht]

/-- flush only writes the queue, the timers and the last-flush stamp. -/
theorem flush_det_shape (cfg : Config) (d : Detector) (now : Int) :
    ∃ p bt lf df, (flush cfg d now).1 =
      { d with pendingEvents := p, batchTimer := bt, lastFlushTime := lf,
               deferredFlushTimer := df } := by
  simp only [flush]
  repeat' split
  all_goals exact ⟨_, _, _, _, rfl⟩

/-- addEvent only writes the queue, the timers and the last-flush stamp. -/
theorem addEvent_det_shape (cfg : Config) (st : AssistantState) (d : Detector)
    (ev : TriggerEvent) (now : Int) :
    ∃ p bt lf df, (addEvent cfg st d ev now).1 =
      { d with pendingEvents := p, batchTimer := bt, lastFlushTime := lf,
               deferredFlushTimer := df } := by
  simp only [addEvent]
  repeat' split
  all_goals first
    | exact ⟨_, _, _, _, rfl⟩
    | (obtain ⟨p, bt, lf, df, h⟩ := flush_det_shape cfg _ now
       exact ⟨p, bt, lf, df, by rw [h]⟩)

theorem addEvent_fst_hesitationFired (cfg : Config) (st : AssistantState)
    (d : Detector) (ev : TriggerEvent) (now : Int) :
    (addEvent cfg st d ev now).1.hesitationFired = d.hesitationFired := by
  obtain ⟨p, bt, lf, df, h⟩ := addEvent_det_shape cfg st d ev now
  rw [h]

theorem addEvent_fst_convergenceGateFired (cfg : Config) (st : AssistantState)
    (d : Detector) (ev : TriggerEvent) (now : Int) :
    (addEvent cfg st d ev now).1.convergenceGateFired = d.convergenceGateFired := by
  obtain ⟨p, bt, lf, df, h⟩ := addEvent_det_shape cfg st d ev now
  rw [h]

theorem addEvent_fst_convergenceEscalationFired (cfg : Config) (st : AssistantState)
    (d : Detector) (ev : TriggerEvent) (now : Int) :
    (addEvent cfg st d ev now).1.convergenceEscalationFired =
      d.convergenceEscalationFired := by
  obtain ⟨p, bt, lf, df, h⟩ := addEvent_det_shape cfg st d ev now
  rw [h]

theorem addEvent_fst_denouementGateFired (cfg : Config) (st : AssistantState)
    (d : Detector) (ev : TriggerEvent) (now : Int) :
    (addEvent cfg st d ev now).1.denouementGateFired = d.denouementGateFired := by
  obtain ⟨p, bt, lf, df, h⟩ := addEvent_det_shape cfg st d ev now
  rw [h]

-- ── C10: sleep transition precedence in checkSilence ───────────────────────

/-- A pacing manager sitting in ACTIVE with otherwise-initial state. -/
def activePm : PacingManager :=
  ⟨{ createInitialPacingState with assistant_state := AssistantState.ACTIVE }, []⟩

/-- Detector for the C10 counterexample: the P4 one-shot guard has already
fired and the GM has been silent beyond both thresholds. -/
def c10CeDet : Detector :=
  { initialDetector defaultConfig [] with
      silenceAlertFired := true, lastGmSpeechTime := 1000000 }

/-- C10 counterexample: in ACTIVE with GM silence past both the sleep
threshold (15 min) and the P4 threshold (90 s), a silence-check invocation
whose P4 guard has already fired takes no ACTIVE→SLEEP transition at all —
the whole check is a no-op, contradicting the claim that the transition is
taken in every such invocation. -/
theorem c10_counterexample :
    (2000000 - c10CeDet.lastGmSpeechTime ≥ defaultConfig.sleepThresholdMs ∧
      2000000 - c10CeDet.lastGmSpeechTime ≥ defaultConfig.silenceThresholdMs ∧
      activePm.state.assistant_state = AssistantState.ACTIVE) ∧
    checkSilence defaultConfig activePm c10CeDet 2000000 =
      (activePm, c10CeDet, []) := by
  constructor
  · exact ⟨by decide, by decide, rfl⟩
  · rfl

/-- C10 (amended): in a silence-check invocation in ACTIVE state where the
P4 one-shot guard has not yet fired, GM speech has been seen, and the
silence duration has reached both the sleep threshold and the (shorter) P4
threshold, the ACTIVE→SLEEP transition is taken and no P4 silence event is
emitted — the sleep check precedes and short-circuits the P4 alert. -/
theorem c10_sleep_precedence (cfg : Config) (pm : PacingManager) (d : Detector)
    (now : Int)
    (hst : pm.state.assistant_state = AssistantState.ACTIVE)
    (hguard : d.silenceAlertFired = false)
    (hseen : d.lastGmSpeechTime ≠ 0)
    (hsleep : now - d.lastGmSpeechTime ≥ cfg.sleepThresholdMs)
    (_hp4 : now - d.lastGmSpeechTime ≥ cfg.silenceThresholdMs) :
    checkSilence cfg pm d now = (pm.transitionTo AssistantState.SLEEP, d, []) := by
  unfold checkSilence
  simp [hst, hguard, hseen, hsleep]

/-- Detector for the C10 witness: guard not yet fired. -/
def c10WDet : Detector :=
  { initialDetector defaultConfig [] with lastGmSpeechTime := 1000000 }

theorem c10_witness :
    checkSilence defaultConfig activePm c10WDet 2000000 =
      (activePm.transitionTo AssistantState.SLEEP, c10WDet, []) :=
  c10_sleep_precedence defaultConfig activePm c10WDet 2000000 rfl rfl
    (by decide) (by decide) (by decide)

-- ── C3: cooldown exemption and deferred flush ──────────────────────────────

/-- C3: for every flush attempt on a nonempty pending set: (a) if some
pending event is P1 or P2, the batch is emitted regardless of the cooldown;
(b) if all pending events are P3/P4, the cooldown has not elapsed and no
deferred-flush timer exists, the batch is kept, a single deferred-flush
timer is scheduled for exactly the remaining cooldown duration, and running
that timer at its expiry emits the full batch; (c) if a deferred-flush
timer already exists, no second one is scheduled and nothing is dropped. -/
theorem c3_cooldown_exemption_and_deferral (cfg : Config) (d : Detector) (now : Int)
    (hne : d.pendingEvents ≠ []) :
    ((∃ e ∈ d.pendingEvents, e.priority = priP1 ∨ e.priority = priP2) →
      flush cfg d now =
        ({ d with batchTimer := none, pendingEvents := [], lastFlushTime := now },
          [Output.batch { events := sortEvents d.pendingEvents, flushedAt := now }])) ∧
    ((∀ e ∈ d.pendingEvents, e.priority ≠ priP1 ∧ e.priority ≠ priP2) →
      now - d.lastFlushTime < cfg.minIntervalMs →
      (d.deferredFlushTimer = none →
        flush cfg d now =
          ({ d with
              deferredFlushTimer := some (now + (cfg.minIntervalMs - (now - d.lastFlushTime))) }, []) ∧
        deferredFire cfg
            { d with
                deferredFlushTimer := some (now + (cfg.minIntervalMs - (now - d.lastFlushTime))) }
            (now + (cfg.minIntervalMs - (now - d.lastFlushTime))) =
          ({ d with batchTimer := none, pendingEvents := [],
                    deferredFlushTimer := none,
                    lastFlushTime := now + (cfg.minIntervalMs - (now - d.lastFlushTime)) },
            [Output.batch { events := sortEvents d.pendingEvents,
                            flushedAt := now + (cfg.minIntervalMs - (now - d.lastFlushTime)) }])) ∧
      (∀ x, d.deferredFlushTimer = some x → flush cfg d now = (d, []))) := by
  have hempty : d.pendingEvents.isEmpty = false := by
    cases h : d.pendingEvents with
    | nil => exact absurd h hne
    | cons a l => rfl
  constructor
  · intro hex
    have hexempt :
        (d.pendingEvents.any fun e => e.priority == priP1 || e.priority == priP2) =
          true := by
      rw [List.any_eq_true]
      obtain ⟨e, he, hp⟩ := hex
      exact ⟨e, he, by rcases hp with h | h <;> simp [h]⟩
    unfold flush
    simp [hempty, hexempt]
  · intro hall hcool
    have hexempt :
        (d.pendingEvents.any fun e => e.priority == priP1 || e.priority == priP2) =
          false := by
      rw [List.any_eq_false]
      intro e he
      have := hall e he
      simp [this.1, this.2]
    constructor
    · intro hdef
      have harith : now + (cfg.minIntervalMs - (now - d.lastFlushTime)) =
          d.lastFlushTime + cfg.minIntervalMs := by ring
      constructor
      · unfold flush
        simp [hempty, hexempt, hdef, hcool]
      · unfold deferredFire
        simp only [beq_self_eq_true, if_true]
        unfold flush
        have hnotlt :
            ¬ (now + (cfg.minIntervalMs - (now - d.lastFlushTime)) -
                d.lastFlushTime < cfg.minIntervalMs) := by omega
        simp [hempty, hexempt, hnotlt]
    · intro x hx
      unfold flush
      simp [hempty, hexempt, hx, hcool]

/-- Detector for the C3 witness, part (a): a P2 event pending while the
cooldown since the last flush has not elapsed. -/
def c3DetA : Detector :=
  { initialDetector defaultConfig [] with
      pendingEvents := [{ type := "scene_transition", priority := priP2,
                          source := "transcript", data := [], timestamp := 500000 }],
      lastFlushTime := 400000 }

/-- Detector for the C3 witness, parts (b)/(c): only a P4 event pending. -/
def c3DetB : Detector :=
  { initialDetector defaultConfig [] with
      pendingEvents := [{ type := "silence_detection", priority := priP4,
                          source := "silence", data := [], timestamp := 500000 }],
      lastFlushTime := 400000 }

theorem c3_witness :
    (flush defaultConfig c3DetA 500000 =
      ({ c3DetA with batchTimer := none, pendingEvents := [],
                     lastFlushTime := 500000 },
        [Output.batch { events := sortEvents c3DetA.pendingEvents,
                        flushedAt := 500000 }])) ∧
    (flush defaultConfig c3DetB 500000 =
      ({ c3DetB with
          deferredFlushTimer := some (500000 + (defaultConfig.minIntervalMs - (500000 - c3DetB.lastFlushTime))) },
        [])) := by
  constructor
  · exact (c3_cooldown_exemption_and_deferral defaultConfig c3DetA 500000
      (by decide)).1 (by decide)
  · exact (((c3_cooldown_exemption_and_deferral defaultConfig c3DetB 500000
      (by decide)).2 (by decide) (by decide)).1 rfl).1

-- ── C5: auto-activation threshold behavior ─────────────────────────────────

/-- C5: whenever the count of distinct canonical terms in the updated
rolling window reaches the configured threshold, checkAutoActive raises the
activation signal and clears the window to empty; below the threshold no
signal is raised and the window keeps exactly the updated entries; and at
machine level, a segment processed in PREGAME with auto-activation enabled
whose updated window reaches the threshold yields exactly one
`activated`-with-source-`transcript` output. -/
theorem c5_auto_activation (cfg : Config) (env : Env) (sys : Sys) (seg : Segment)
    (d : Detector) (text : String) (now : Int) :
    (distinctCanonicals (autoWindowAfter cfg d text now) ≥ cfg.autoActiveThreshold →
      checkAutoActive cfg d text now = ({ d with activationWindow := [] }, true)) ∧
    (distinctCanonicals (autoWindowAfter cfg d text now) < cfg.autoActiveThreshold →
      checkAutoActive cfg d text now =
        ({ d with activationWindow := autoWindowAfter cfg d text now }, false)) ∧
    (stateOf sys = AssistantState.PREGAME → cfg.autoActiveEnabled = true →
      distinctCanonicals (autoWindowAfter cfg sys.det seg.text now) ≥
        cfg.autoActiveThreshold →
      (processSegment cfg env sys seg now).2.count (Output.activated "transcript") =
        1) := by
  refine ⟨?_, ?_, ?_⟩
  · intro h
    unfold checkAutoActive
    simp [h]
  · intro h
    unfold checkAutoActive
    simp [Nat.not_le.mpr h]
  · intro hpre hen hthr
    have hb := segBookkeeping_activation_frame cfg seg now sys.det
    have hwin : autoWindowAfter cfg (segBookkeeping cfg seg now sys.det) seg.text now =
        autoWindowAfter cfg sys.det seg.text now := by
      unfold autoWindowAfter
      rw [hb.1, hb.2]
    have hca : checkAutoActive cfg (segBookkeeping cfg seg now sys.det) seg.text now =
        ({ segBookkeeping cfg seg now sys.det with activationWindow := [] }, true) := by
      unfold checkAutoActive
      rw [hwin]
      simp [hthr]
    unfold stateOf at hpre
    unfold processSegment
    simp only [hpre, hen]
    simp
    rw [hca]
    simp only [List.count_append]
    rw [count_activated_of_batches _ _ (segDetectors_outs_batch _ _ _ _)]
    simp

/-- Concrete C5 witness data: two distinct canonical terms already in the
window and a third arriving in the segment, with threshold 3. -/
def c5Det : Detector :=
  { initialDetector defaultConfig
      [("darwin", "darwin"), ("tengu rock", "tengu rock"),
       ("mother brain", "mother brain")] with
    activationWindow :=
      [⟨"darwin", 800000⟩, ⟨"mother brain", 900000⟩] }

def c5Sys : Sys :=
  { pacing := ⟨createInitialPacingState, []⟩, det := c5Det }

def c5Seg : Segment := ⟨"we reached tengu rock", some "u1", none, none, 1000000⟩

theorem c5_witness :
    (checkAutoActive defaultConfig c5Det "we reached tengu rock" 1000000 =
      ({ c5Det with activationWindow := [] }, true)) ∧
    (processSegment defaultConfig env0 c5Sys c5Seg 1000000).2.count
      (Output.activated "transcript") = 1 := by
  constructor
  · exact (c5_auto_activation defaultConfig env0 c5Sys c5Seg c5Det
      "we reached tengu rock" 1000000).1 (by decide)
  · exact (c5_auto_activation defaultConfig env0 c5Sys c5Seg c5Det
      "we reached tengu rock" 1000000).2.2 rfl rfl (by decide)

-- ── C4: sliding-window pruning ─────────────────────────────────────────────

/-- C4 counterexample data: one scene whose keyword "alpha" is matched at
t = 0, then an update at t = 200000 (past the 3-minute window) with no
keyword match. -/
def c4Scene : SceneIndexEntry := ⟨"s1", "T", "card", ["alpha", "beta"], [], false, none⟩

def c4Det : Detector :=
  { initialDetector defaultConfig [] with sceneIndex := [c4Scene] }

def c4Det1 : Detector :=
  (checkSceneKeywordMatch defaultConfig AssistantState.ACTIVE c4Det "alpha" 0 0).1

/-- C4 counterexample: after the keyword "alpha" is accumulated at t = 0,
an update of the per-scene keyword buffer at t = 200000 — more than the
3-minute window after the entry was recorded — retains the stale entry
unchanged instead of discarding it; the per-scene buffer is not pruned by
entry age on every update. -/
theorem c4_counterexample :
    c4Det1.sceneMatchState = [("s1", ⟨["alpha"], 0⟩)] ∧
    (checkSceneKeywordMatch defaultConfig AssistantState.ACTIVE c4Det1
        "nothing here" 200000 200000).1.sceneMatchState =
      [("s1", ⟨["alpha"], 0⟩)] ∧
    (200000 : Int) - 0 > SCENE_MATCH_WINDOW_MS := by
  refine ⟨by decide, by decide, by decide⟩

/-- C4 (amended): the flowing-dialogue and auto-activation windows prune by
entry age on each of their updates — an entry survives exactly when it is
strictly newer than the cutoff (now minus the window width) — while the
per-scene keyword buffer is handled lazily: an update matching none of a
scene's keywords leaves that scene's accumulated state untouched (even when
stale), and a matching update whose window started more than the window
width ago discards the whole accumulated keyword set and starts a fresh
window containing only the keywords of the current segment. -/
theorem c4_window_pruning (cutoff : Int) (rs : List RecentSeg)
    (ah : List ActivationHit) (cfg : Config) (st : AssistantState)
    (textLower : List Char) (ts now : Int) (scene : SceneIndexEntry)
    (d : Detector) (ms : SceneMatchSt) :
    (∀ s : RecentSeg, s ∈ pruneRecent cutoff rs ↔ s ∈ rs ∧ s.timestamp > cutoff) ∧
    (∀ e : ActivationHit,
      e ∈ pruneActivation cutoff ah ↔ e ∈ ah ∧ e.timestamp > cutoff) ∧
    (scene.served = false →
      (∀ kw ∈ scene.keywords, wordBoundaryMatch kw.data textLower = false) →
      (sceneStep cfg st textLower ts now scene d).2.1.sceneMatchState =
        d.sceneMatchState) ∧
    (scene.served = false →
      mapGetScene d.sceneMatchState scene.id = some ms →
      now - ms.windowStart > SCENE_MATCH_WINDOW_MS →
      (scene.keywords.filter fun kw => wordBoundaryMatch kw.data textLower) ≠ [] →
      (setAddAll []
          (scene.keywords.filter fun kw => wordBoundaryMatch kw.data textLower)).length <
        2 →
      (sceneStep cfg st textLower ts now scene d).2.1.sceneMatchState =
        mapSetScene d.sceneMatchState scene.id
          ⟨setAddAll []
            (scene.keywords.filter fun kw => wordBoundaryMatch kw.data textLower),
            now⟩) := by
  refine ⟨?_, ?_, ?_, ?_⟩
  · intro s
    simp [pruneRecent, List.mem_filter]
  · intro e
    simp [pruneActivation, List.mem_filter]
  · intro hserved hnone
    have hfil : (scene.keywords.filter fun kw => wordBoundaryMatch kw.data textLower) =
        [] := by
      rw [List.filter_eq_nil_iff]
      intro kw hkw
      simp [hnone kw hkw]
    unfold sceneStep
    simp [hserved, hfil]
  · intro hserved hms hstale hne hlt
    unfold sceneStep
    rw [hserved]
    simp only [Bool.false_eq_true, if_false]
    rw [hms]
    simp [hne, hstale, Nat.not_le.mpr hlt, List.isEmpty_iff]

/-- Witness for the amended C4: a fresh window replaces a stale one. -/
def c4WDet : Detector :=
  { initialDetector defaultConfig [] with
      sceneIndex := [c4Scene],
      sceneMatchState := [("s1", ⟨["alpha"], 0⟩)] }

theorem c4_witness :
    (⟨"x", 50⟩ ∈ pruneRecent (40 : Int) [⟨"x", 50⟩] ↔
      (⟨"x", 50⟩ : RecentSeg) ∈ [(⟨"x", 50⟩ : RecentSeg)] ∧ (50 : Int) > 40) ∧
    (sceneStep defaultConfig AssistantState.ACTIVE (lowerChars "beta is here")
        200000 200000 c4Scene c4WDet).2.1.sceneMatchState =
      mapSetScene c4WDet.sceneMatchState "s1"
        ⟨setAddAll []
          (c4Scene.keywords.filter fun kw =>
            wordBoundaryMatch kw.data (lowerChars "beta is here")),
          200000⟩ := by
  constructor
  · exact (c4_window_pruning 40 [⟨"x", 50⟩] [] defaultConfig
      AssistantState.ACTIVE [] 0 0 c4Scene c4WDet ⟨["alpha"], 0⟩).1 ⟨"x", 50⟩
  · exact (c4_window_pruning 40 [] [] defaultConfig AssistantState.ACTIVE
      (lowerChars "beta is here") 200000 200000 c4Scene c4WDet
      ⟨["alpha"], 0⟩).2.2.2 rfl (by decide) (by decide) (by decide) (by decide)

-- ── C2: state gating of batches ────────────────────────────────────────────

def c2Seg : Segment := ⟨"hello", some "gm1", none, none, 1000000⟩

/-- C2 counterexample run: activate via /scene, GM speaks, the P4 silence
trigger enqueues in ACTIVE starting the 30 s batch window, the GM issues
/sleep, and the batch timer then flushes while the state is SLEEP. -/
def c2Inputs : List Input :=
  [ Input.gmCommand ⟨GmCommandType.scene, ["tavern"]⟩ 999000,
    Input.transcript [c2Seg] 1000000,
    Input.timerCheck 1090000,
    Input.gmCommand ⟨GmCommandType.sleep, []⟩ 1095000,
    Input.batchTimerExpiry 1120000 ]

/-- C2 counterexample: a batch whose flush-time assistant state is SLEEP
contains a P4 event (enqueued earlier in ACTIVE), contradicting the claim
that every event of a batch flushed in PREGAME or SLEEP is P1. -/
theorem c2_counterexample :
    stateOf (runSys defaultConfig env0 (sys0 defaultConfig [] 0)
      (c2Inputs.take 4)) = AssistantState.SLEEP ∧
    runOutputs defaultConfig env0 (sys0 defaultConfig [] 0) c2Inputs =
      [Output.batch
        { events := [⟨"silence_detection", priP4, "silence",
            [("silenceSeconds", "90")], 1090000⟩],
          flushedAt := 1120000 }] ∧
    stateOf (runSys defaultConfig env0 (sys0 defaultConfig [] 0) c2Inputs) =
      AssistantState.SLEEP := by
  refine ⟨by decide, by decide, by decide⟩

/-- C2 (amended): while the assistant state is PREGAME or SLEEP, addEvent
discards every non-P1 event before it enters the queue, so every event
enqueued in those states is P1; a batch flushed while SLEEP may however
still contain non-P1 events that were enqueued earlier in ACTIVE, since
flush does not re-filter by state. -/
theorem c2_pregame_sleep_gating (cfg : Config) (st : AssistantState)
    (d : Detector) (ev : TriggerEvent) (now : Int)
    (hst : st = AssistantState.PREGAME ∨ st = AssistantState.SLEEP)
    (hp : ev.priority ≠ priP1) :
    addEvent cfg st d ev now = (d, []) := by
  unfold addEvent
  rcases hst with h | h <;> simp [h, hp]

theorem c2_witness :
    addEvent defaultConfig AssistantState.SLEEP (initialDetector defaultConfig [])
      ⟨"silence_detection", priP4, "silence", [], 0⟩ 0 =
      (initialDetector defaultConfig [], []) :=
  c2_pregame_sleep_gating defaultConfig AssistantState.SLEEP
    (initialDetector defaultConfig [])
    ⟨"silence_detection", priP4, "silence", [], 0⟩ 0 (Or.inr rfl) (by decide)

-- ── Gate-stage shape lemmas ────────────────────────────────────────────────

theorem convGateStage_shape (cfg : Config) (pm : PacingManager) (endMs now : Int)
    (d : Detector) :
    ∃ p bt lf df g, (convGateStage cfg pm endMs now d).1 =
      { d with pendingEvents := p, batchTimer := bt, lastFlushTime := lf,
               deferredFlushTimer := df, convergenceGateFired := g } ∧
      (d.convergenceGateFired = true → g = true) := by
  simp only [convGateStage]
  split
  · obtain ⟨p, bt, lf, df, h⟩ := addEvent_det_shape cfg _ _ _ now
    exact ⟨p, bt, lf, df, true, by rw [h], fun _ => rfl⟩
  · exact ⟨d.pendingEvents, d.batchTimer, d.lastFlushTime, d.deferredFlushTimer,
      d.convergenceGateFired, rfl, fun h => h⟩

theorem convEscStage_shape (cfg : Config) (pm : PacingManager) (endMs now : Int)
    (d : Detector) :
    ∃ p bt lf df g, (convEscStage cfg pm endMs now d).1 =
      { d with pendingEvents := p, batchTimer := bt, lastFlushTime := lf,
               deferredFlushTimer := df, convergenceEscalationFired := g } ∧
      (d.convergenceEscalationFired = true → g = true) := by
  simp only [convEscStage]
  split
  · split
    · obtain ⟨p, bt, lf, df, h⟩ := addEvent_det_shape cfg _ _ _ now
      exact ⟨p, bt, lf, df, true, by rw [h], fun _ => rfl⟩
    · exact ⟨d.pendingEvents, d.batchTimer, d.lastFlushTime, d.deferredFlushTimer,
        d.convergenceEscalationFired, rfl, fun h => h⟩
  · exact ⟨d.pendingEvents, d.batchTimer, d.lastFlushTime, d.deferredFlushTimer,
      d.convergenceEscalationFired, rfl, fun h => h⟩

theorem denGateStage_shape (cfg : Config) (pm : PacingManager) (endMs now : Int)
    (d : Detector) :
    ∃ p bt lf df g, (denGateStage cfg pm endMs now d).1 =
      { d with pendingEvents := p, batchTimer := bt, lastFlushTime := lf,
               deferredFlushTimer := df, denouementGateFired := g } ∧
      (d.denouementGateFired = true → g = true) := by
  simp only [denGateStage]
  split
  · obtain ⟨p, bt, lf, df, h⟩ := addEvent_det_shape cfg _ _ _ now
    exact ⟨p, bt, lf, df, true, by rw [h], fun _ => rfl⟩
  · exact ⟨d.pendingEvents, d.batchTimer, d.lastFlushTime, d.deferredFlushTimer,
      d.denouementGateFired, rfl, fun h => h⟩

theorem convGateStage_hesitationFired (cfg : Config) (pm : PacingManager)
    (endMs now : Int) (d : Detector) :
    (convGateStage cfg pm endMs now d).1.hesitationFired = d.hesitationFired := by
  obtain ⟨p, bt, lf, df, g, h, _⟩ := convGateStage_shape cfg pm endMs now d
  rw [h]

theorem convEscStage_hesitationFired (cfg : Config) (pm : PacingManager)
    (endMs now : Int) (d : Detector) :
    (convEscStage cfg pm endMs now d).1.hesitationFired = d.hesitationFired := by
  obtain ⟨p, bt, lf, df, g, h, _⟩ := convEscStage_shape cfg pm endMs now d
  rw [h]

theorem denGateStage_hesitationFired (cfg : Config) (pm : PacingManager)
    (endMs now : Int) (d : Detector) :
    (denGateStage cfg pm endMs now d).1.hesitationFired = d.hesitationFired := by
  obtain ⟨p, bt, lf, df, g, h, _⟩ := denGateStage_shape cfg pm endMs now d
  rw [h]

theorem convEscStage_convergenceGateFired (cfg : Config) (pm : PacingManager)
    (endMs now : Int) (d : Detector) :
    (convEscStage cfg pm endMs now d).1.convergenceGateFired =
      d.convergenceGateFired := by
  obtain ⟨p, bt, lf, df, g, h, _⟩ := convEscStage_shape cfg pm endMs now d
  rw [h]

theorem denGateStage_convergenceGateFired (cfg : Config) (pm : PacingManager)
    (endMs now : Int) (d : Detector) :
    (denGateStage cfg pm endMs now d).1.convergenceGateFired =
      d.convergenceGateFired := by
  obtain ⟨p, bt, lf, df, g, h, _⟩ := denGateStage_shape cfg pm endMs now d
  rw [h]

theorem convGateStage_convergenceEscalationFired (cfg : Config)
    (pm : PacingManager) (endMs now : Int) (d : Detector) :
    (convGateStage cfg pm endMs now d).1.convergenceEscalationFired =
      d.convergenceEscalationFired := by
  obtain ⟨p, bt, lf, df, g, h, _⟩ := convGateStage_shape cfg pm endMs now d
  rw [h]

theorem denGateStage_convergenceEscalationFired (cfg : Config)
    (pm : PacingManager) (endMs now : Int) (d : Detector) :
    (denGateStage cfg pm endMs now d).1.convergenceEscalationFired =
      d.convergenceEscalationFired := by
  obtain ⟨p, bt, lf, df, g, h, _⟩ := denGateStage_shape cfg pm endMs now d
  rw [h]

theorem convGateStage_denouementGateFired (cfg : Config) (pm : PacingManager)
    (endMs now : Int) (d : Detector) :
    (convGateStage cfg pm endMs now d).1.denouementGateFired =
      d.denouementGateFired := by
  obtain ⟨p, bt, lf, df, g, h, _⟩ := convGateStage_shape cfg pm endMs now d
  rw [h]

theorem convEscStage_denouementGateFired (cfg : Config) (pm : PacingManager)
    (endMs now : Int) (d : Detector) :
    (convEscStage cfg pm endMs now d).1.denouementGateFired =
      d.denouementGateFired := by
  obtain ⟨p, bt, lf, df, g, h, _⟩ := convEscStage_shape cfg pm endMs now d
  rw [h]

theorem convGateStage_mono (cfg : Config) (pm : PacingManager) (endMs now : Int)
    (d : Detector) (h : d.convergenceGateFired = true) :
    (convGateStage cfg pm endMs now d).1.convergenceGateFired = true := by
  obtain ⟨p, bt, lf, df, g, hs, hm⟩ := convGateStage_shape cfg pm endMs now d
  rw [hs]
  exact hm h

theorem convEscStage_mono (cfg : Config) (pm : PacingManager) (endMs now : Int)
    (d : Detector) (h : d.convergenceEscalationFired = true) :
    (convEscStage cfg pm endMs now d).1.convergenceEscalationFired = true := by
  obtain ⟨p, bt, lf, df, g, hs, hm⟩ := convEscStage_shape cfg pm endMs now d
  rw [hs]
  exact hm h

theorem denGateStage_mono (cfg : Config) (pm : PacingManager) (endMs now : Int)
    (d : Detector) (h : d.denouementGateFired = true) :
    (denGateStage cfg pm endMs now d).1.denouementGateFired = true := by
  obtain ⟨p, bt, lf, df, g, hs, hm⟩ := denGateStage_shape cfg pm endMs now d
  rw [hs]
  exact hm h

-- ── C6: hesitation gap-fill (P1-H) ─────────────────────────────────────────

/-- C6: if the GM's last speech (in ACTIVE) matched a hesitation keyword at
time `t` and the silence gap since then has reached the configured
threshold, the hesitation check fires the P1 gap-fill exactly once: it
emits one immediately-flushed batch holding one `gm_hesitation` P1 event
carrying the hesitation segment's text, and sets the one-shot guard; a
check with the guard set is a no-op; the sibling timer checks
(checkSilence, checkPacingGates) never clear the guard; and only GM speech
resets it — a non-GM segment leaves it untouched, while a GM hesitation
segment records the marker (text and timestamps) with the guard cleared. -/
theorem c6_hesitation_gap_fill (cfg : Config) (st : AssistantState)
    (pm : PacingManager) (d : Detector) (seg : Segment) (t now : Int) :
    (st = AssistantState.ACTIVE → d.hesitationFired = false →
      d.lastHesitationTime = t → t ≠ 0 → d.lastGmSpeechTime = t →
      now - t ≥ cfg.hesitationSilenceMs → d.pendingEvents = [] →
      checkHesitation cfg st d now =
        ({ d with hesitationFired := true, pendingEvents := [],
                  batchTimer := none, lastFlushTime := now },
          [Output.batch
            { events := [⟨"gm_hesitation", priP1, "hesitation",
                [("transcript", d.lastHesitationText),
                 ("silenceSeconds",
                  toString (PacingManager.roundSeconds (now - t)))], now⟩],
              flushedAt := now }])) ∧
    (d.hesitationFired = true → checkHesitation cfg st d now = (d, [])) ∧
    ((checkSilence cfg pm d now).2.1.hesitationFired = d.hesitationFired) ∧
    ((checkPacingGates cfg pm d now).1.hesitationFired = d.hesitationFired) ∧
    (isGmSpeech cfg seg = false →
      (segBookkeeping cfg seg now d).hesitationFired = d.hesitationFired) ∧
    (isGmSpeech cfg seg = true → isHesitationKeyword cfg seg.text = true →
      (segBookkeeping cfg seg now d).lastHesitationTime = now ∧
      (segBookkeeping cfg seg now d).lastHesitationText = seg.text ∧
      (segBookkeeping cfg seg now d).lastGmSpeechTime = now ∧
      (segBookkeeping cfg seg now d).hesitationFired = false) := by
  refine ⟨?_, ?_, ?_, ?_, ?_, ?_⟩
  · intro hst hguard hlast hne hgm hsil hpend
    subst hst
    subst hlast
    unfold checkHesitation
    rw [hgm]
    simp only [bne_self_eq_false, Bool.false_eq_true, if_false, hguard,
      if_neg (by simp [hne] : ¬(d.lastHesitationTime == 0) = true)]
    simp only [hsil, decide_eq_true_eq, if_pos hsil]
    unfold addEvent
    simp [hpend, MAX_PENDING_EVENTS, priP1]
    unfold flush
    simp [hpend, sortEvents, insertSorted, priP1, priP2]
  · intro h
    unfold checkHesitation
    simp [h]
  · simp only [checkSilence]
    repeat' split
    all_goals simp [addEvent_fst_hesitationFired]
  · simp only [checkPacingGates]
    repeat' split
    all_goals first
      | rfl
      | (simp only [gateSeq]
         rw [denGateStage_hesitationFired, convEscStage_hesitationFired,
             convGateStage_hesitationFired])
  · intro hgm
    unfold segBookkeeping
    simp [hgm]
    split <;> rfl
  · intro hgm hh
    unfold segBookkeeping
    simp [hgm, hh]
    split <;> exact ⟨rfl, rfl, rfl, rfl⟩

/-- C6 witness data: spec scenario 3 — the GM says "his name is uh the
captain" at t = 1000000 and stays silent for six seconds (threshold 5 s). -/
def c6Det : Detector :=
  { initialDetector defaultConfig [] with
      lastGmSpeechTime := 1000000,
      lastHesitationTime := 1000000,
      lastHesitationText := "his name is uh the captain" }

theorem c6_witness :
    checkHesitation defaultConfig AssistantState.ACTIVE c6Det 1006000 =
      ({ c6Det with hesitationFired := true, pendingEvents := [],
                    batchTimer := none, lastFlushTime := 1006000 },
        [Output.batch
          { events := [⟨"gm_hesitation", priP1, "hesitation",
              [("transcript", "his name is uh the captain"),
               ("silenceSeconds",
                toString (PacingManager.roundSeconds (1006000 - 1000000)))],
              1006000⟩],
            flushedAt := 1006000 }]) :=
  (c6_hesitation_gap_fill defaultConfig AssistantState.ACTIVE activePm c6Det
      ⟨"", none, none, none, 0⟩ 1000000 1006000).1
    rfl rfl rfl (by decide) rfl (by decide) rfl

-- ── C8: pacing gates ───────────────────────────────────────────────────────

/-- The detector states reached by a sequence of checkPacingGates
invocations (arbitrary pacing state and clock per invocation, covering any
interleaved GM commands that move the act or the end time). -/
def gatesStates (cfg : Config) (d : Detector) :
    List (PacingManager × Int) → List Detector
  | [] => []
  | pmNow :: rest =>
      let d2 := (checkPacingGates cfg pmNow.1 d pmNow.2).1
      d2 :: gatesStates cfg d2 rest

def gatesRun (cfg : Config) (d : Detector)
    (invs : List (PacingManager × Int)) : List Detector :=
  d :: gatesStates cfg d invs

/-- Number of false→true transitions of a flag along a detector trace. -/
def flipCount (f : Detector → Bool) : List Detector → Nat
  | [] => 0
  | [_] => 0
  | a :: b :: rest => (if !(f a) && f b then 1 else 0) + flipCount f (b :: rest)

/-- The three gate flags are never cleared by checkPacingGates. -/
theorem checkPacingGates_flags_mono (cfg : Config) (pm : PacingManager)
    (d : Detector) (now : Int) :
    (d.convergenceGateFired = true →
      (checkPacingGates cfg pm d now).1.convergenceGateFired = true) ∧
    (d.convergenceEscalationFired = true →
      (checkPacingGates cfg pm d now).1.convergenceEscalationFired = true) ∧
    (d.denouementGateFired = true →
      (checkPacingGates cfg pm d now).1.denouementGateFired = true) := by
  refine ⟨?_, ?_, ?_⟩
  · intro h
    simp only [checkPacingGates]
    repeat' split
    all_goals first
      | exact h
      | (simp only [gateSeq]
         rw [denGateStage_convergenceGateFired, convEscStage_convergenceGateFired]
         exact convGateStage_mono _ _ _ _ _ h)
  · intro h
    simp only [checkPacingGates]
    repeat' split
    all_goals first
      | exact h
      | (simp only [gateSeq]
         rw [denGateStage_convergenceEscalationFired]
         apply convEscStage_mono
         rw [convGateStage_convergenceEscalationFired]
         exact h)
  · intro h
    simp only [checkPacingGates]
    repeat' split
    all_goals first
      | exact h
      | (simp only [gateSeq]
         apply denGateStage_mono
         rw [convEscStage_denouementGateFired, convGateStage_denouementGateFired]
         exact h)

theorem gatesRun_flip_zero (cfg : Config) (f : Detector → Bool)
    (hmono : ∀ pm d now, f d = true → f (checkPacingGates cfg pm d now).1 = true) :
    ∀ (invs : List (PacingManager × Int)) (d : Detector), f d = true →
      flipCount f (gatesRun cfg d invs) = 0 := by
  intro invs
  induction invs with
  | nil => intro d h; rfl
  | cons pmNow rest ih =>
      intro d h
      have h2 := hmono pmNow.1 d pmNow.2 h
      show flipCount f (d :: gatesRun cfg (checkPacingGates cfg pmNow.1 d pmNow.2).1 rest) = 0
      unfold flipCount
      rw [show (gatesRun cfg (checkPacingGates cfg pmNow.1 d pmNow.2).1 rest) =
        (checkPacingGates cfg pmNow.1 d pmNow.2).1 ::
          gatesStates cfg (checkPacingGates cfg pmNow.1 d pmNow.2).1 rest from rfl]
      have := ih (checkPacingGates cfg pmNow.1 d pmNow.2).1 h2
      simp only [h, Bool.not_true, Bool.false_and, if_false]
      simpa [gatesRun, flipCount] using this

theorem gatesRun_flip_le_one (cfg : Config) (f : Detector → Bool)
    (hmono : ∀ pm d now, f d = true → f (checkPacingGates cfg pm d now).1 = true) :
    ∀ (invs : List (PacingManager × Int)) (d : Detector),
      flipCount f (gatesRun cfg d invs) ≤ 1 := by
  intro invs
  induction invs with
  | nil => intro d; simp [gatesRun, gatesStates, flipCount]
  | cons pmNow rest ih =>
      intro d
      by_cases h : f d = true
      · rw [gatesRun_flip_zero cfg f hmono _ d h]
        omega
      · show flipCount f
          (d :: gatesRun cfg (checkPacingGates cfg pmNow.1 d pmNow.2).1 rest) ≤ 1
        set d2 := (checkPacingGates cfg pmNow.1 d pmNow.2).1 with hd2
        rw [show gatesRun cfg d2 rest = d2 :: gatesStates cfg d2 rest from rfl]
        unfold flipCount
        by_cases h2 : f d2 = true
        · have hz := gatesRun_flip_zero cfg f hmono rest d2 h2
          simp only [gatesRun] at hz
          rw [hz]
          split <;> omega
        · have hle := ih d2
          rw [show gatesRun cfg d2 rest = d2 :: gatesStates cfg d2 rest from rfl] at hle
          simp only [Bool.not_eq_true] at h2
          simp [h2]
          exact hle

theorem convGateStage_fire_conditions (cfg : Config) (pm : PacingManager)
    (endMs now : Int) (d : Detector)
    (h0 : d.convergenceGateFired = false)
    (h1 : (convGateStage cfg pm endMs now d).1.convergenceGateFired = true) :
    0 < endMs - now ∧ endMs - now ≤ cfg.convergenceGateMinutes * 60000 := by
  simp only [convGateStage] at h1
  split at h1
  next hcond =>
    simp only [Bool.and_eq_true, decide_eq_true_eq] at hcond
    exact ⟨hcond.2, hcond.1.2⟩
  next => simp [h0] at h1

theorem convEscStage_fire_conditions (cfg : Config) (pm : PacingManager)
    (endMs now : Int) (d : Detector)
    (h0 : d.convergenceEscalationFired = false)
    (h1 : (convEscStage cfg pm endMs now d).1.convergenceEscalationFired = true) :
    d.convergenceGateFired = true ∧
    cfg.convergenceGateMinutes * 60000 - (endMs - now) > 10 * 60000 ∧
    pm.state.current_act < 3 := by
  simp only [convEscStage] at h1
  split at h1
  next hcond1 =>
    split at h1
    next hcond2 =>
      simp only [Bool.and_eq_true, decide_eq_true_eq] at hcond1 hcond2
      exact ⟨hcond1.1, hcond2.1, hcond2.2⟩
    next => simp [h0] at h1
  next => simp [h0] at h1

theorem denGateStage_fire_conditions (cfg : Config) (pm : PacingManager)
    (endMs now : Int) (d : Detector)
    (h0 : d.denouementGateFired = false)
    (h1 : (denGateStage cfg pm endMs now d).1.denouementGateFired = true) :
    0 < endMs - now ∧ endMs - now ≤ cfg.denouementGateMinutes * 60000 := by
  simp only [denGateStage] at h1
  split at h1
  next hcond =>
    simp only [Bool.and_eq_true, decide_eq_true_eq] at hcond
    exact ⟨hcond.2, hcond.1.2⟩
  next => simp [h0] at h1

theorem checkPacingGates_conv_conditions (cfg : Config) (pm : PacingManager)
    (d : Detector) (now : Int)
    (h0 : d.convergenceGateFired = false)
    (h1 : (checkPacingGates cfg pm d now).1.convergenceGateFired = true) :
    pm.state.assistant_state = AssistantState.ACTIVE ∧
    ∃ endMs, pm.state.session_end_time = some endMs ∧
      0 < endMs - now ∧ endMs - now ≤ cfg.convergenceGateMinutes * 60000 := by
  unfold checkPacingGates at h1
  split at h1
  next hst => simp [h0] at h1
  next hst =>
    have hact : pm.state.assistant_state = AssistantState.ACTIVE := by
      simpa using hst
    split at h1
    next => simp [h0] at h1
    next endMs heq =>
      refine ⟨hact, endMs, heq, ?_⟩
      simp only [gateSeq] at h1
      rw [denGateStage_convergenceGateFired, convEscStage_convergenceGateFired] at h1
      exact convGateStage_fire_conditions cfg pm endMs now d h0 h1

theorem checkPacingGates_esc_conditions (cfg : Config) (pm : PacingManager)
    (d : Detector) (now : Int)
    (h0 : d.convergenceEscalationFired = false)
    (h1 : (checkPacingGates cfg pm d now).1.convergenceEscalationFired = true) :
    pm.state.assistant_state = AssistantState.ACTIVE ∧
    ∃ endMs, pm.state.session_end_time = some endMs ∧
      cfg.convergenceGateMinutes * 60000 - (endMs - now) > 10 * 60000 ∧
      pm.state.current_act < 3 := by
  unfold checkPacingGates at h1
  split at h1
  next hst => simp [h0] at h1
  next hst =>
    have hact : pm.state.assistant_state = AssistantState.ACTIVE := by
      simpa using hst
    split at h1
    next => simp [h0] at h1
    next endMs heq =>
      refine ⟨hact, endMs, heq, ?_⟩
      simp only [gateSeq] at h1
      rw [denGateStage_convergenceEscalationFired] at h1
      have h0b : ((convGateStage cfg pm endMs now d).1).convergenceEscalationFired =
          false := by
        rw [convGateStage_convergenceEscalationFired]
        exact h0
      have := convEscStage_fire_conditions cfg pm endMs now
        (convGateStage cfg pm endMs now d).1 h0b h1
      exact ⟨this.2.1, this.2.2⟩

theorem checkPacingGates_den_conditions (cfg : Config) (pm : PacingManager)
    (d : Detector) (now : Int)
    (h0 : d.denouementGateFired = false)
    (h1 : (checkPacingGates cfg pm d now).1.denouementGateFired = true) :
    pm.state.assistant_state = AssistantState.ACTIVE ∧
    ∃ endMs, pm.state.session_end_time = some endMs ∧
      0 < endMs - now ∧ endMs - now ≤ cfg.denouementGateMinutes * 60000 := by
  unfold checkPacingGates at h1
  split at h1
  next hst => simp [h0] at h1
  next hst =>
    have hact : pm.state.assistant_state = AssistantState.ACTIVE := by
      simpa using hst
    split at h1
    next => simp [h0] at h1
    next endMs heq =>
      refine ⟨hact, endMs, heq, ?_⟩
      simp only [gateSeq] at h1
      have h0b :
          ((convEscStage cfg pm endMs now
            (convGateStage cfg pm endMs now d).1).1).denouementGateFired = false := by
        rw [convEscStage_denouementGateFired, convGateStage_denouementGateFired]
        exact h0
      exact denGateStage_fire_conditions cfg pm endMs now _ h0b h1

/-- C8 counterexample data: session end configured at t = 10000000 ms with
the default 45-minute convergence threshold; the check runs with 30
minutes remaining and act 1. -/
def c8Pm : PacingManager :=
  ⟨{ createInitialPacingState with
      assistant_state := AssistantState.ACTIVE,
      session_end_time := some 10000000 }, []⟩

/-- C8 counterexample: in a single checkPacingGates invocation, both the
convergence gate and the convergence escalation fire (both one-shot flags
flip false→true at once), because the escalation clock measures time since
the instant the remaining time equalled the convergence threshold, not
time since the gate actually fired — so the escalation does not fire
"exactly when 10 minutes have elapsed after the convergence gate fired". -/
theorem c8_counterexample :
    (initialDetector defaultConfig []).convergenceGateFired = false ∧
    (initialDetector defaultConfig []).convergenceEscalationFired = false ∧
    (checkPacingGates defaultConfig c8Pm (initialDetector defaultConfig [])
      8200000).1.convergenceGateFired = true ∧
    (checkPacingGates defaultConfig c8Pm (initialDetector defaultConfig [])
      8200000).1.convergenceEscalationFired = true := by
  exact ⟨rfl, rfl, by decide, by decide⟩

/-- C8 (amended): over any sequence of checkPacingGates invocations (with
arbitrary interleaved pacing-state changes), each of the three one-shot
flags flips false→true at most once — a gate "fires" exactly at such a
flip; the convergence and denouement gates fire only while the remaining
time is positive and at or below their minute threshold; and the
convergence escalation fires only when more than 10 minutes have passed
since the instant the remaining time equalled the convergence threshold
(which may be in the same invocation as the gate itself) and the act
number is below 3. -/
theorem c8_pacing_gates (cfg : Config) (d0 d : Detector) (pm : PacingManager)
    (now : Int) (invs : List (PacingManager × Int)) :
    (flipCount (fun x => x.convergenceGateFired) (gatesRun cfg d0 invs) ≤ 1) ∧
    (flipCount (fun x => x.denouementGateFired) (gatesRun cfg d0 invs) ≤ 1) ∧
    (flipCount (fun x => x.convergenceEscalationFired) (gatesRun cfg d0 invs) ≤ 1) ∧
    (d.convergenceGateFired = false →
      (checkPacingGates cfg pm d now).1.convergenceGateFired = true →
      pm.state.assistant_state = AssistantState.ACTIVE ∧
      ∃ endMs, pm.state.session_end_time = some endMs ∧
        0 < endMs - now ∧ endMs - now ≤ cfg.convergenceGateMinutes * 60000) ∧
    (d.denouementGateFired = false →
      (checkPacingGates cfg pm d now).1.denouementGateFired = true →
      pm.state.assistant_state = AssistantState.ACTIVE ∧
      ∃ endMs, pm.state.session_end_time = some endMs ∧
        0 < endMs - now ∧ endMs - now ≤ cfg.denouementGateMinutes * 60000) ∧
    (d.convergenceEscalationFired = false →
      (checkPacingGates cfg pm d now).1.convergenceEscalationFired = true →
      pm.state.assistant_state = AssistantState.ACTIVE ∧
      ∃ endMs, pm.state.session_end_time = some endMs ∧
        cfg.convergenceGateMinutes * 60000 - (endMs - now) > 10 * 60000 ∧
        pm.state.current_act < 3) := by
  refine ⟨?_, ?_, ?_, ?_, ?_, ?_⟩
  · exact gatesRun_flip_le_one cfg _
      (fun pm d now h => (checkPacingGates_flags_mono cfg pm d now).1 h) invs d0
  · exact gatesRun_flip_le_one cfg _
      (fun pm d now h => (checkPacingGates_flags_mono cfg pm d now).2.2 h) invs d0
  · exact gatesRun_flip_le_one cfg _
      (fun pm d now h => (checkPacingGates_flags_mono cfg pm d now).2.1 h) invs d0
  · exact checkPacingGates_conv_conditions cfg pm d now
  · exact checkPacingGates_den_conditions cfg pm d now
  · exact checkPacingGates_esc_conditions cfg pm d now

theorem c8_witness :
    c8Pm.state.assistant_state = AssistantState.ACTIVE ∧
    ∃ endMs, c8Pm.state.session_end_time = some endMs ∧
      0 < endMs - 8200000 ∧
      endMs - 8200000 ≤ defaultConfig.convergenceGateMinutes * 60000 :=
  (c8_pacing_gates defaultConfig (initialDetector defaultConfig [])
      (initialDetector defaultConfig []) c8Pm 8200000 []).2.2.2.1 rfl (by decide)

-- ── C9: word-boundary safety ───────────────────────────────────────────────

/-- A nonempty term made entirely of word characters. -/
def isWordTerm (term : List Char) : Bool :=
  !term.isEmpty && term.all isWordChar

/-- Every occurrence of `term` in `text` has a word character directly on
at least one side: the term appears only as a proper substring of longer
words (vacuously true when it does not appear at all). -/
def occursOnlyInsideWords (term text : List Char) : Bool :=
  (List.range (text.length + 1)).all fun i =>
    !litAt text i term ||
    ((decide (0 < i) && wordCharAt text (i - 1)) || wordCharAt text (i + term.length))

theorem litAt_get (text term : List Char) (i j : Nat)
    (h : litAt text i term = true) (hj : j < term.length) :
    text.get? (i + j) = term.get? j := by
  unfold litAt at h
  rw [decide_eq_true_eq] at h
  obtain ⟨t, ht⟩ := h
  have hdrop : (text.drop i).get? j = text.get? (i + j) := List.get?_drop text i j
  rw [← hdrop, ← ht]
  exact List.get?_append hj

/-- Key lemma: a nonempty all-word-character term whose every occurrence
is flanked by a word character never matches its word-boundary pattern. -/
theorem wordBoundary_no_subword_match (term text : List Char)
    (hw : isWordTerm term = true)
    (ho : occursOnlyInsideWords term text = true) :
    wordBoundaryMatch term text = false := by
  unfold isWordTerm at hw
  rw [Bool.and_eq_true, List.all_eq_true] at hw
  obtain ⟨hne, hall⟩ := hw
  have hlen : 0 < term.length := by
    cases term with
    | nil => simp [List.isEmpty] at hne
    | cons a l => simp
  unfold wordBoundaryMatch tokensMatch
  rw [List.any_eq_false]
  intro i hi
  rw [List.mem_range] at hi
  intro hmatch
  simp only [matchFrom, Bool.and_eq_true, Bool.and_true] at hmatch
  obtain ⟨hB1, hlit, hB2⟩ := hmatch
  unfold occursOnlyInsideWords at ho
  rw [List.all_eq_true] at ho
  have hflank := ho i (by rw [List.mem_range]; exact hi)
  rw [Bool.or_eq_true, Bool.or_eq_true] at hflank
  rcases hflank with hnl | hflank
  · rw [Bool.not_eq_true', hlit] at hnl
    cases hnl
  · have hWC0 : wordCharAt text i = true := by
      unfold wordCharAt
      have h0 := litAt_get text term i 0 hlit hlen
      rw [Nat.add_zero] at h0
      rw [h0]
      cases hterm : term.get? 0 with
      | none => rw [List.get?_eq_none] at hterm; omega
      | some c => exact hall c (List.get?_mem hterm)
    have hWClast : wordCharAt text (i + term.length - 1) = true := by
      unfold wordCharAt
      have hj : term.length - 1 < term.length := by omega
      have h1 := litAt_get text term i (term.length - 1) hlit hj
      have harith : i + (term.length - 1) = i + term.length - 1 := by omega
      rw [harith] at h1
      rw [h1]
      cases hterm : term.get? (term.length - 1) with
      | none => rw [List.get?_eq_none] at hterm; omega
      | some c => exact hall c (List.get?_mem hterm)
    rcases hflank with hleft | hright
    · rw [Bool.and_eq_true, decide_eq_true_eq] at hleft
      unfold boundaryAt at hB1
      rw [hWC0, decide_eq_true hleft.1, hleft.2] at hB1
      simp at hB1
    · unfold boundaryAt at hB2
      have hpos : (0 < i + term.length) := by omega
      rw [hright, decide_eq_true hpos, hWClast] at hB2
      simp at hB2

/-- C9: a term that occurs in a text only as a proper substring of longer
words never matches the word-boundary pattern built for it; consequently a
segment all of whose dictionary terms occur only inside longer words adds
nothing to the auto-activation window, an NPC all of whose aliases and
fuzzy forms occur only inside longer words is not matched, and when no NPC
in the cache is matched the first-appearance check changes nothing and
emits nothing — in particular no `served` flag is set. -/
theorem c9_word_boundary_safety (cfg : Config) (st : AssistantState)
    (d : Detector) (text : String) (ts now : Int) (npc : NpcCacheEntry) :
    ((∀ term : List Char, isWordTerm term = true →
      occursOnlyInsideWords term (lowerChars text) = true →
      wordBoundaryMatch term (lowerChars text) = false)) ∧
    ((∀ e ∈ d.activationDict, isWordTerm e.term.data = true ∧
        occursOnlyInsideWords e.term.data (lowerChars text) = true) →
      ∀ x ∈ (checkAutoActive cfg d text now).1.activationWindow,
        x ∈ d.activationWindow) ∧
    ((∀ al ∈ npc.aliases, isWordTerm al.data = true ∧
        occursOnlyInsideWords al.data (lowerChars text) = true) →
      (∀ gc ∈ d.fuzzyTable, gc.2 = npc.key →
        isWordTerm gc.1.data = true ∧
        occursOnlyInsideWords gc.1.data (lowerChars text) = true) →
      npcTextMatch d.fuzzyTable npc (lowerChars text) = false) ∧
    ((∀ n ∈ d.npcCache, npcTextMatch d.fuzzyTable n (lowerChars text) = false) →
      checkNpcFirstAppearance cfg st d text ts now = (d, [])) := by
  refine ⟨?_, ?_, ?_, ?_⟩
  · intro term hw ho
    exact wordBoundary_no_subword_match term (lowerChars text) hw ho
  · intro hall
    have hmatches : activationMatches d.activationDict (lowerChars text) now = [] := by
      unfold activationMatches
      rw [List.filterMap_eq_nil]
      intro e he
      rw [wordBoundary_no_subword_match e.term.data (lowerChars text)
        (hall e he).1 (hall e he).2]
      rfl
    intro x hx
    simp only [checkAutoActive, autoWindowAfter] at hx
    rw [hmatches, List.append_nil] at hx
    split at hx
    · simp at hx
    · unfold pruneActivation at hx
      exact (List.mem_filter.mp hx).1
  · intro hal hfz
    unfold npcTextMatch
    rw [Bool.or_eq_false_iff]
    constructor
    · rw [List.any_eq_false]
      intro al hmem
      rw [wordBoundary_no_subword_match al.data (lowerChars text)
        (hal al hmem).1 (hal al hmem).2]
      simp
    · rw [List.any_eq_false]
      intro gc hmem
      by_cases hkey : gc.2 = npc.key
      · rw [wordBoundary_no_subword_match gc.1.data (lowerChars text)
          (hfz gc hmem hkey).1 (hfz gc hmem hkey).2]
        simp
      · simp [hkey]
  · intro hall
    have hloop : ∀ (cache : List NpcCacheEntry) (dd : Detector),
        dd.fuzzyTable = d.fuzzyTable →
        (∀ n ∈ cache, npcTextMatch d.fuzzyTable n (lowerChars text) = false) →
        npcLoop cfg st (lowerChars text) ts now cache dd = (cache, dd, []) := by
      intro cache
      induction cache with
      | nil => intro dd _ _; rfl
      | cons n rest ih =>
          intro dd hf hc
          have hstep : npcStep cfg st (lowerChars text) ts now n dd = (n, dd, []) := by
            unfold npcStep
            split
            · rfl
            · rw [hf, hc n (List.mem_cons_self n rest)]
              simp
          unfold npcLoop
          rw [hstep]
          have := ih dd hf (fun m hm => hc m (List.mem_cons_of_mem n hm))
          dsimp only
          rw [this]
          rfl
    simp only [checkNpcFirstAppearance]
    rw [hloop d.npcCache d rfl hall]

/-- C9 witness data: the NPC entry from spec scenario 4 whose alias
"veltin" must not be served by "the veltinary clinic is nearby". -/
def veltinNpc : NpcCacheEntry :=
  ⟨"veltin", "Veltin", "", "", "", ["veltin"], false, none⟩

def c9Det : Detector :=
  { initialDetector defaultConfig [] with npcCache := [veltinNpc] }

theorem c9_witness :
    wordBoundaryMatch "darwin".data (lowerChars "the darwinist speaks") = false ∧
    npcTextMatch c9Det.fuzzyTable veltinNpc
      (lowerChars "the veltinary clinic is nearby") = false ∧
    checkNpcFirstAppearance defaultConfig AssistantState.ACTIVE c9Det
      "the veltinary clinic is nearby" 0 0 = (c9Det, []) := by
  refine ⟨?_, ?_, ?_⟩
  · exact (c9_word_boundary_safety defaultConfig AssistantState.ACTIVE c9Det
      "the darwinist speaks" 0 0 veltinNpc).1 "darwin".data (by decide) (by decide)
  · exact (c9_word_boundary_safety defaultConfig AssistantState.ACTIVE c9Det
      "the veltinary clinic is nearby" 0 0 veltinNpc).2.2.1
      (by intro al hmem; fin_cases hmem; exact ⟨by decide, by decide⟩)
      (by intro gc hmem; fin_cases hmem)
  · exact (c9_word_boundary_safety defaultConfig AssistantState.ACTIVE c9Det
      "the veltinary clinic is nearby" 0 0 veltinNpc).2.2.2
      (by intro n hmem; fin_cases hmem;
          exact (c9_word_boundary_safety defaultConfig AssistantState.ACTIVE c9Det
            "the veltinary clinic is nearby" 0 0 veltinNpc).2.2.1
            (by intro al hmem2; fin_cases hmem2; exact ⟨by decide, by decide⟩)
            (by intro gc hmem2; fin_cases hmem2))

-- ── C1: legal transition edges ─────────────────────────────────────────────

/-- C1 counterexample: the `/sleep` GM command in PREGAME transitions the
assistant state directly PREGAME→SLEEP, an edge the claim says never
occurs. -/
theorem c1_counterexample :
    stateOf (sys0 defaultConfig [] 0) = AssistantState.PREGAME ∧
    stateOf (runSys defaultConfig env0 (sys0 defaultConfig [] 0)
      [Input.gmCommand ⟨GmCommandType.sleep, []⟩ 1000]) = AssistantState.SLEEP := by
  exact ⟨rfl, by decide⟩

/-- The transition edges that actually occur: self-loops, PREGAME→ACTIVE,
ACTIVE→SLEEP, SLEEP→ACTIVE, and (only via the `/sleep` command)
PREGAME→SLEEP. -/
def edgeOK (a b : AssistantState) : Bool :=
  a == b ||
  (a == AssistantState.PREGAME && b == AssistantState.ACTIVE) ||
  (a == AssistantState.ACTIVE && b == AssistantState.SLEEP) ||
  (a == AssistantState.SLEEP && b == AssistantState.ACTIVE) ||
  (a == AssistantState.PREGAME && b == AssistantState.SLEEP)

theorem edgeOK_refl (a : AssistantState) : edgeOK a a = true := by
  cases a <;> rfl

theorem edgeOK_active (a : AssistantState) : edgeOK a AssistantState.ACTIVE = true := by
  cases a <;> rfl

theorem edgeOK_sleep (a : AssistantState) : edgeOK a AssistantState.SLEEP = true := by
  cases a <;> rfl

/-- A step whose resulting state is the old one or ACTIVE traverses a legal
edge and cannot realize PREGAME→SLEEP. -/
theorem edge_of_same_or_active {a b : AssistantState} {C : Prop}
    (h : b = a ∨ b = AssistantState.ACTIVE) :
    edgeOK a b = true ∧
    (a = AssistantState.PREGAME → b = AssistantState.SLEEP → C) := by
  rcases h with h | h <;> subst h
  · exact ⟨edgeOK_refl _, fun h1 h2 => absurd (h1.symm.trans h2) (by decide)⟩
  · exact ⟨edgeOK_active _, fun _ h2 => absurd h2 (by decide)⟩

/-- handleActivation leaves the assistant state alone or sets it ACTIVE. -/
theorem handleActivation_state (cfg : Config) (env : Env) (src : String)
    (sys : Sys) (now : Int) :
    stateOf (handleActivation cfg env src sys now) = stateOf sys ∨
    stateOf (handleActivation cfg env src sys now) = AssistantState.ACTIVE := by
  unfold handleActivation
  dsimp only
  split_ifs with h1 h2
  · right; rfl
  · left; rfl
  · right
    unfold stateOf
    dsimp only
    split
    · split <;> rfl
    · rfl

/-- handleActivation never touches the detector. -/
theorem handleActivation_det (cfg : Config) (env : Env) (src : String)
    (sys : Sys) (now : Int) :
    (handleActivation cfg env src sys now).det = sys.det := by
  unfold handleActivation
  dsimp only
  split_ifs <;> rfl

theorem segStageP1_pacing (cfg : Config) (seg : Segment) (now : Int) (sys : Sys) :
    (segStageP1 cfg seg now sys).1.pacing = sys.pacing := by
  unfold segStageP1; split <;> rfl

theorem segStageSceneKw_pacing (cfg : Config) (seg : Segment) (now : Int) (sys : Sys) :
    (segStageSceneKw cfg seg now sys).1.pacing = sys.pacing := by
  unfold segStageSceneKw; split <;> rfl

theorem segStageActKw_pacing (cfg : Config) (seg : Segment) (now : Int) (sys : Sys) :
    (segStageActKw cfg seg now sys).1.pacing = sys.pacing := by
  unfold segStageActKw; split <;> rfl

theorem segStageNpc_pacing (cfg : Config) (seg : Segment) (now : Int) (sys : Sys) :
    (segStageNpc cfg seg now sys).1.pacing = sys.pacing := by
  unfold segStageNpc; split <;> rfl

theorem segStageScnIdx_pacing (cfg : Config) (seg : Segment) (now : Int) (sys : Sys) :
    (segStageScnIdx cfg seg now sys).1.pacing = sys.pacing := by
  unfold segStageScnIdx; split <;> rfl

/-- The per-segment detectors never touch the pacing manager. -/
theorem segDetectors_pacing (cfg : Config) (sys : Sys) (seg : Segment) (now : Int) :
    (segDetectors cfg sys seg now).1.pacing = sys.pacing := by
  simp only [segDetectors, seqStage]
  rw [segStageScnIdx_pacing, segStageNpc_pacing, segStageActKw_pacing,
      segStageSceneKw_pacing, segStageP1_pacing]

/-- One segment-loop iteration keeps the assistant state or moves it to
ACTIVE (SLEEP wake-up on GM speech, PREGAME auto-activation). -/
theorem processSegment_state (cfg : Config) (env : Env) (sys : Sys)
    (seg : Segment) (now : Int) :
    stateOf (processSegment cfg env sys seg now).1 = stateOf sys ∨
    stateOf (processSegment cfg env sys seg now).1 = AssistantState.ACTIVE := by
  have hsd : ∀ s : Sys, stateOf (segDetectors cfg s seg now).1 = stateOf s := by
    intro s; unfold stateOf; rw [segDetectors_pacing]
  unfold processSegment
  dsimp only
  rw [hsd]
  by_cases h1 : (sys.pacing.state.assistant_state == AssistantState.SLEEP &&
      isGmSpeech cfg seg) = true
  · have hs : sys.pacing.state.assistant_state = AssistantState.SLEEP := by
      have h1b := h1
      simp only [Bool.and_eq_true, beq_iff_eq] at h1b
      exact h1b.1
    rw [if_pos h1]
    rw [if_neg (by simp [hs])]
    right; rfl
  · rw [if_neg h1]
    by_cases h2 : (sys.pacing.state.assistant_state == AssistantState.PREGAME &&
        cfg.autoActiveEnabled) = true
    · rw [if_pos h2]
      dsimp only
      split
      · rcases handleActivation_state cfg env "transcript"
          { sys with det := (checkAutoActive cfg
              (segBookkeeping cfg seg now sys.det) seg.text now).1 } now with h | h
        · left; exact h
        · right; exact h
      · left; rfl
    · rw [if_neg h2]
      left; rfl

/-- The segment loop keeps the assistant state or moves it to ACTIVE. -/
theorem processSegments_state (cfg : Config) (env : Env) (segs : List Segment)
    (now : Int) : ∀ sys : Sys,
    stateOf (processSegments cfg env sys segs now).1 = stateOf sys ∨
    stateOf (processSegments cfg env sys segs now).1 = AssistantState.ACTIVE := by
  induction segs with
  | nil => intro sys; left; rfl
  | cons seg rest ih =>
      intro sys
      have h2 := ih (processSegment cfg env sys seg now).1
      simp only [processSegments]
      rcases h2 with h2 | h2
      · rw [h2]; exact processSegment_state cfg env sys seg now
      · right; exact h2

/-- advanceAct and advanceScene never change the assistant state. -/
theorem advance_state (pm : PacingManager) (n planned : Int) (now : Int)
    (name : String) :
    (pm.advanceAct n planned now).state.assistant_state = pm.state.assistant_state ∧
    (pm.advanceScene name planned now).state.assistant_state =
      pm.state.assistant_state := by
  exact ⟨rfl, rfl⟩

/-- Packaging of handleActivation_state for activation sites reached from
a state-preserving mutation. -/
theorem handleActivation_state3 (cfg : Config) (env : Env) (src : String)
    (sys sys2 : Sys) (now : Int) (hpre : stateOf sys2 = stateOf sys) (C : Prop) :
    stateOf (handleActivation cfg env src sys2 now) = stateOf sys ∨
    stateOf (handleActivation cfg env src sys2 now) = AssistantState.ACTIVE ∨ C := by
  rcases handleActivation_state cfg env src sys2 now with h | h
  · left; rw [h, hpre]
  · right; left; exact h

/-- applyGmCommand keeps the assistant state, sets it ACTIVE (activation
paths), or — exactly for the `/sleep` command — sets it SLEEP. -/
theorem applyGmCommand_state (cfg : Config) (env : Env) (sys : Sys)
    (cmd : GmCommand) (now : Int) :
    stateOf (applyGmCommand cfg env sys cmd now) = stateOf sys ∨
    stateOf (applyGmCommand cfg env sys cmd now) = AssistantState.ACTIVE ∨
    (cmd.type = GmCommandType.sleep ∧
      stateOf (applyGmCommand cfg env sys cmd now) = AssistantState.SLEEP) := by
  unfold applyGmCommand
  cases htype : cmd.type
  case act =>
      dsimp only
      split <;> try (left; rfl)
      split <;> try (left; rfl)
      refine handleActivation_state3 cfg env "command" sys _ now ?_ _
      rfl
  case scene =>
      dsimp only
      split <;> split <;> try (left; rfl)
      all_goals
        (refine handleActivation_state3 cfg env "command" sys _ now ?_ _; rfl)
  case spotlight => dsimp only; split <;> left <;> rfl
  case engagement => dsimp only; split <;> left <;> rfl
  case separation => dsimp only; split <;> left <;> rfl
  case climax => dsimp only; split <;> left <;> rfl
  case seed => dsimp only; split <;> left <;> rfl
  case sleep => right; right; exact ⟨rfl, rfl⟩
  case wake =>
      rcases handleActivation_state cfg env "command" sys now with h | h
      · left; exact h
      · right; left; exact h
  case endtime =>
      dsimp only
      split
      · left; rfl
      · split <;> left <;> rfl
  case npc =>
      dsimp only
      split
      · split <;> left <;> rfl
      · left; rfl

/-- checkSilence keeps the pacing state except for the ACTIVE→SLEEP
transition. -/
theorem checkSilence_state (cfg : Config) (pm : PacingManager) (d : Detector)
    (now : Int) :
    (checkSilence cfg pm d now).1.state.assistant_state = pm.state.assistant_state ∨
    (pm.state.assistant_state = AssistantState.ACTIVE ∧
      (checkSilence cfg pm d now).1.state.assistant_state = AssistantState.SLEEP) := by
  unfold checkSilence
  dsimp only
  split_ifs with h1 h2 h3 h4 h5 h6
  · left; rfl
  · left; rfl
  · left; rfl
  · right
    refine ⟨?_, rfl⟩
    simp only [bne, Bool.not_eq_true', beq_eq_false_iff_ne, ne_eq,
      Decidable.not_not] at h1
    exact h1
  · left; rfl
  · left; rfl
  · left; rfl

/-- updateElapsed never changes the assistant state. -/
theorem updateElapsed_state (pm : PacingManager) (now : Int) :
    (pm.updateElapsed now).state.assistant_state = pm.state.assistant_state := by
  unfold PacingManager.updateElapsed
  dsimp only
  split <;> split <;> rfl

/-- markOverrunFired never changes the assistant state. -/
theorem markOverrunFired_state (pm : PacingManager) :
    (pm.markOverrunFired).state.assistant_state = pm.state.assistant_state := by
  unfold PacingManager.markOverrunFired
  split <;> rfl

/-- checkPacingOverrun never changes the assistant state. -/
theorem checkPacingOverrun_state (cfg : Config) (pm : PacingManager)
    (d : Detector) (th now : Int) :
    (checkPacingOverrun cfg pm d th now).1.state.assistant_state =
      pm.state.assistant_state := by
  unfold checkPacingOverrun
  dsimp only
  split_ifs <;> first | rfl | exact markOverrunFired_state pm

/-- onGameEvent keeps the assistant state or moves it to ACTIVE. -/
theorem onGameEvent_state (cfg : Config) (env : Env) (sys : Sys)
    (eventType : String) (data : List (String × String)) (now : Int) :
    stateOf (onGameEvent cfg env sys eventType data now).1 = stateOf sys ∨
    stateOf (onGameEvent cfg env sys eventType data now).1 =
      AssistantState.ACTIVE := by
  unfold onGameEvent
  dsimp only
  split
  · split
    · rcases handleActivation_state cfg env "foundry" sys now with h | h <;>
        [left; right] <;> · split <;> [exact h; exact h]
    · split
      · left; rfl
      · left; rfl
  · left; rfl

/-- Every step of the machine traverses a legal edge, and the only step
realizing PREGAME→SLEEP is a `/sleep` GM command. -/
theorem step_state_edge (cfg : Config) (env : Env) (sys : Sys) (inp : Input) :
    edgeOK (stateOf sys) (stateOf (step cfg env sys inp).1) = true ∧
    (stateOf sys = AssistantState.PREGAME →
     stateOf (step cfg env sys inp).1 = AssistantState.SLEEP →
     ∃ cmd now, inp = Input.gmCommand cmd now ∧
       cmd.type = GmCommandType.sleep) := by
  cases inp with
  | transcript segs now =>
      have h := processSegments_state cfg env segs now sys
      have e : stateOf (step cfg env sys (Input.transcript segs now)).1 =
          stateOf (processSegments cfg env sys segs now).1 := rfl
      rw [e]
      rcases h with h | h
      · exact edge_of_same_or_active (Or.inl h)
      · exact edge_of_same_or_active (Or.inr h)
  | gameEvent eventType data now =>
      rcases onGameEvent_state cfg env sys eventType data now with h | h
      · exact edge_of_same_or_active (Or.inl h)
      · exact edge_of_same_or_active (Or.inr h)
  | gmCommand cmd now =>
      rcases applyGmCommand_state cfg env sys cmd now with h | h | ⟨ht, h⟩
      · exact edge_of_same_or_active (Or.inl h)
      · exact edge_of_same_or_active (Or.inr h)
      · refine ⟨?_, fun _ _ => ⟨cmd, now, rfl, ht⟩⟩
        have e : stateOf (step cfg env sys (Input.gmCommand cmd now)).1 =
            AssistantState.SLEEP := h
        rw [e]; exact edgeOK_sleep _
  | timerCheck now =>
      have e : stateOf (step cfg env sys (Input.timerCheck now)).1 =
          (checkSilence cfg sys.pacing
            (checkHesitation cfg sys.pacing.state.assistant_state sys.det
              now).1 now).1.state.assistant_state := rfl
      rw [e]
      rcases checkSilence_state cfg sys.pacing
          (checkHesitation cfg sys.pacing.state.assistant_state sys.det now).1
          now with h | ⟨ha, h⟩
      · exact edge_of_same_or_active (Or.inl h)
      · rw [h]
        refine ⟨?_, fun h1 _ => absurd (h1.symm.trans ha) (by decide)⟩
        show edgeOK (stateOf sys) AssistantState.SLEEP = true
        exact edgeOK_sleep _
  | overrunCheck now =>
      have e : stateOf (step cfg env sys (Input.overrunCheck now)).1 =
          (checkPacingOverrun cfg (sys.pacing.updateElapsed now) sys.det
            cfg.sceneOverrunThresholdMinutes now).1.state.assistant_state := rfl
      have h : stateOf (step cfg env sys (Input.overrunCheck now)).1 =
          stateOf sys := by
        rw [e, checkPacingOverrun_state, updateElapsed_state]; rfl
      exact edge_of_same_or_active (Or.inl h)
  | batchTimerExpiry now =>
      exact edge_of_same_or_active (Or.inl rfl)
  | deferredFlushExpiry now =>
      exact edge_of_same_or_active (Or.inl rfl)
  | setCaches npc scenes =>
      exact edge_of_same_or_active (Or.inl rfl)

/-- Running an input list split at its last element. -/
theorem runSys_append (cfg : Config) (env : Env) (x : Input) (xs : List Input) :
    ∀ sys : Sys,
    runSys cfg env sys (xs ++ [x]) = (step cfg env (runSys cfg env sys xs) x).1 := by
  induction xs with
  | nil => intro sys; rfl
  | cons y ys ih => intro sys; exact ih (step cfg env sys y).1

/-- C1 (amended): along every run of the machine from startup, every
consecutive pair of assistant states is a self-loop or one of the edges
PREGAME→ACTIVE, ACTIVE→SLEEP, SLEEP→ACTIVE, PREGAME→SLEEP; the edges
SLEEP→PREGAME and ACTIVE→PREGAME never occur, and a PREGAME→SLEEP edge
occurs only at a `/sleep` GM command (the claim's assertion that
PREGAME→SLEEP never occurs is refuted by c1_counterexample). -/
theorem c1_transition_edges (cfg : Config) (env : Env)
    (fz : List (String × String)) (t0 : Int) (inputs : List Input) (i : Nat)
    (h : i < inputs.length) :
    edgeOK (stateOf (runSys cfg env (sys0 cfg fz t0) (inputs.take i)))
        (stateOf (runSys cfg env (sys0 cfg fz t0) (inputs.take (i + 1)))) = true ∧
    (stateOf (runSys cfg env (sys0 cfg fz t0) (inputs.take i)) =
        AssistantState.PREGAME →
     stateOf (runSys cfg env (sys0 cfg fz t0) (inputs.take (i + 1))) =
        AssistantState.SLEEP →
     ∃ cmd now, inputs.get ⟨i, h⟩ = Input.gmCommand cmd now ∧
       cmd.type = GmCommandType.sleep) := by
  have ht : inputs.take (i + 1) = inputs.take i ++ [inputs.get ⟨i, h⟩] := by
    rw [List.take_succ, List.getElem?_eq_getElem h]; rfl
  rw [ht, runSys_append]
  exact step_state_edge cfg env (runSys cfg env (sys0 cfg fz t0) (inputs.take i))
    (inputs.get ⟨i, h⟩)

def c1WInputs : List Input := [Input.gmCommand ⟨GmCommandType.sleep, []⟩ 5]

-- ── C7: pending-event queue capacity ───────────────────────────────────────

/-- The strict-greater scan either keeps the incoming best or lands on a
list element strictly larger than the incoming best and not exceeded by
any element. -/
theorem lowestAux_spec (l : List TriggerEvent) : ∀ i b p : Nat,
    (lowestAux l i b p = b ∧ ∀ e ∈ l, e.priority ≤ p) ∨
    (∃ k e, l.get? k = some e ∧ lowestAux l i b p = i + k ∧ p < e.priority ∧
      ∀ e2 ∈ l, e2.priority ≤ e.priority) := by
  induction l with
  | nil =>
      intro i b p
      left
      exact ⟨rfl, by intro e he; cases he⟩
  | cons x rest ih =>
      intro i b p
      by_cases hx : p < x.priority
      · rcases ih (i + 1) i x.priority with ⟨heq, hall⟩ | ⟨k, e, hget, heq, hlt, hall⟩
        · right
          refine ⟨0, x, rfl, ?_, hx, ?_⟩
          · show lowestAux (x :: rest) i b p = i + 0
            unfold lowestAux
            rw [if_pos hx, heq]
            omega
          · intro e2 he2
            rcases List.mem_cons.mp he2 with h | h
            · subst h; exact le_refl _
            · exact hall e2 h
        · right
          refine ⟨k + 1, e, ?_, ?_, lt_trans hx hlt, ?_⟩
          · simpa using hget
          · show lowestAux (x :: rest) i b p = i + (k + 1)
            unfold lowestAux
            rw [if_pos hx, heq]
            omega
          · intro e2 he2
            rcases List.mem_cons.mp he2 with h | h
            · subst h; exact le_of_lt hlt
            · exact hall e2 h
      · rcases ih (i + 1) b p with ⟨heq, hall⟩ | ⟨k, e, hget, heq, hlt, hall⟩
        · left
          constructor
          · unfold lowestAux; rw [if_neg hx]; exact heq
          · intro e2 he2
            rcases List.mem_cons.mp he2 with h | h
            · subst h; omega
            · exact hall e2 h
        · right
          refine ⟨k + 1, e, by simpa using hget, ?_, hlt, ?_⟩
          · unfold lowestAux; rw [if_neg hx, heq]; omega
          · intro e2 he2
            rcases List.mem_cons.mp he2 with h | h
            · subst h; exact le_of_lt (lt_of_le_of_lt (Nat.le_of_not_lt hx) hlt)
            · exact hall e2 h

/-- The lowestIdx scan lands on an entry of maximal priority number. -/
theorem lowestPriorityIdx_spec (l : List TriggerEvent) (hne : l ≠ []) :
    ∃ lowest, l.get? (lowestPriorityIdx l) = some lowest ∧
      ∀ e ∈ l, e.priority ≤ lowest.priority := by
  cases l with
  | nil => exact absurd rfl hne
  | cons x rest =>
      rcases lowestAux_spec rest 1 0 x.priority with ⟨heq, hall⟩ |
          ⟨k, e, hget, heq, hlt, hall⟩
      · refine ⟨x, ?_, ?_⟩
        · show (x :: rest).get? (lowestAux rest 1 0 x.priority) = some x
          rw [heq]; rfl
        · intro e2 he2
          rcases List.mem_cons.mp he2 with h | h
          · subst h; exact le_refl _
          · exact hall e2 h
      · refine ⟨e, ?_, ?_⟩
        · show (x :: rest).get? (lowestAux rest 1 0 x.priority) = some e
          rw [heq, Nat.add_comm]
          simpa using hget
        · intro e2 he2
          rcases List.mem_cons.mp he2 with h | h
          · subst h; exact le_of_lt hlt
          · exact hall e2 h

/-- flush either keeps the queue (cooldown deferral / empty queue) or
empties it into a batch. -/
theorem flush_pend (cfg : Config) (d : Detector) (now : Int) :
    (flush cfg d now).1.pendingEvents = d.pendingEvents ∨
    (flush cfg d now).1.pendingEvents = [] := by
  unfold flush
  dsimp only
  split_ifs <;> simp

/-- addEvent preserves the queue-capacity bound. -/
theorem addEvent_len (cfg : Config) (st : AssistantState) (d : Detector)
    (ev : TriggerEvent) (now : Int)
    (h : d.pendingEvents.length ≤ MAX_PENDING_EVENTS) :
    (addEvent cfg st d ev now).1.pendingEvents.length ≤ MAX_PENDING_EVENTS := by
  unfold addEvent
  dsimp only
  split
  · exact h
  · have tail : ∀ pending : List TriggerEvent,
        pending.length + 1 ≤ MAX_PENDING_EVENTS →
        ((let d2 := { d with pendingEvents := pending ++ [ev] };
          if ev.priority == priP1 then flush cfg d2 now
          else
            match d2.batchTimer with
            | some _ => (d2, [])
            | none => ({ d2 with batchTimer := some (now + cfg.batchWindowMs) },
                ([] : List Output))) :
          Detector × List Output).1.pendingEvents.length ≤ MAX_PENDING_EVENTS := by
      intro pending hp
      dsimp only
      have hlen2 : (pending ++ [ev]).length ≤ MAX_PENDING_EVENTS := by
        rw [List.length_append]; simpa using hp
      split
      · rcases flush_pend cfg { d with pendingEvents := pending ++ [ev] } now with
            hf | hf <;> rw [hf]
        · exact hlen2
        · exact Nat.zero_le _
      · split
        · exact hlen2
        · exact hlen2
    by_cases hfull : d.pendingEvents.length ≥ MAX_PENDING_EVENTS
    · have hlen : d.pendingEvents.length = MAX_PENDING_EVENTS :=
        Nat.le_antisymm h hfull
      have hne : d.pendingEvents ≠ [] := by
        intro hnil
        rw [hnil] at hlen
        exact absurd hlen (by decide)
      rcases lowestPriorityIdx_spec d.pendingEvents hne with ⟨lowest, hget, hall⟩
      rw [if_pos hfull, hget]
      dsimp only
      by_cases hpr : ev.priority < lowest.priority
      · rw [if_pos hpr]
        dsimp only
        have hidx : lowestPriorityIdx d.pendingEvents < d.pendingEvents.length := by
          rcases List.get?_eq_some.mp hget with ⟨hb, _⟩
          exact hb
        refine tail _ ?_
        rw [List.length_eraseIdx_of_lt hidx]
        omega
      · rw [if_neg hpr]
        exact h
    · rw [if_neg hfull]
      exact tail _ (by omega)

/-- checkAutoActive never touches the queue. -/
theorem checkAutoActive_pend (cfg : Config) (d : Detector) (text : String)
    (now : Int) :
    (checkAutoActive cfg d text now).1.pendingEvents = d.pendingEvents := by
  unfold checkAutoActive
  dsimp only
  split <;> rfl

/-- segBookkeeping never touches the queue. -/
theorem segBookkeeping_pend (cfg : Config) (seg : Segment) (now : Int)
    (d : Detector) :
    (segBookkeeping cfg seg now d).pendingEvents = d.pendingEvents := by
  unfold segBookkeeping
  rcases hsp : seg.speakerLabel with _ | sl <;>
    rcases hu : seg.userId with _ | u <;>
    by_cases hgm : isGmSpeech cfg seg <;>
    by_cases hh : isHesitationKeyword cfg seg.text <;>
    by_cases ht : (jsTrim seg.text).length > 0 <;>
    simp [hsp, hu, hgm, hh, ht]

theorem checkHesitation_len (cfg : Config) (st : AssistantState) (d : Detector)
    (now : Int) (h : d.pendingEvents.length ≤ MAX_PENDING_EVENTS) :
    (checkHesitation cfg st d now).1.pendingEvents.length ≤ MAX_PENDING_EVENTS := by
  unfold checkHesitation
  dsimp only
  split_ifs <;> first | exact h | exact addEvent_len cfg st _ _ now h

theorem checkSilence_len (cfg : Config) (pm : PacingManager) (d : Detector)
    (now : Int) (h : d.pendingEvents.length ≤ MAX_PENDING_EVENTS) :
    (checkSilence cfg pm d now).2.1.pendingEvents.length ≤ MAX_PENDING_EVENTS := by
  unfold checkSilence
  dsimp only
  split_ifs <;>
    first
      | exact h
      | exact addEvent_len cfg pm.state.assistant_state _ _ now h

theorem checkPacingOverrun_len (cfg : Config) (pm : PacingManager)
    (d : Detector) (th now : Int)
    (h : d.pendingEvents.length ≤ MAX_PENDING_EVENTS) :
    (checkPacingOverrun cfg pm d th now).2.1.pendingEvents.length ≤
      MAX_PENDING_EVENTS := by
  unfold checkPacingOverrun
  dsimp only
  split_ifs <;>
    first
      | exact h
      | exact addEvent_len cfg (pm.markOverrunFired).state.assistant_state _ _
          now h

theorem npcStep_len (cfg : Config) (st : AssistantState) (textLower : List Char)
    (ts now : Int) (npc : NpcCacheEntry) (d : Detector)
    (h : d.pendingEvents.length ≤ MAX_PENDING_EVENTS) :
    (npcStep cfg st textLower ts now npc d).2.1.pendingEvents.length ≤
      MAX_PENDING_EVENTS := by
  unfold npcStep
  dsimp only
  split_ifs <;> first | exact h | exact addEvent_len cfg st _ _ now h

theorem npcLoop_len (cfg : Config) (st : AssistantState) (textLower : List Char)
    (ts now : Int) : ∀ (npcs : List NpcCacheEntry) (d : Detector),
    d.pendingEvents.length ≤ MAX_PENDING_EVENTS →
    (npcLoop cfg st textLower ts now npcs d).2.1.pendingEvents.length ≤
      MAX_PENDING_EVENTS := by
  intro npcs
  induction npcs with
  | nil => intro d h; exact h
  | cons npc rest ih =>
      intro d h
      simp only [npcLoop]
      exact ih _ (npcStep_len cfg st textLower ts now npc d h)

theorem checkNpc_len (cfg : Config) (st : AssistantState) (d : Detector)
    (text : String) (ts now : Int)
    (h : d.pendingEvents.length ≤ MAX_PENDING_EVENTS) :
    (checkNpcFirstAppearance cfg st d text ts now).1.pendingEvents.length ≤
      MAX_PENDING_EVENTS := by
  unfold checkNpcFirstAppearance
  exact npcLoop_len cfg st (lowerChars text) ts now d.npcCache d h

theorem sceneStep_len (cfg : Config) (st : AssistantState)
    (textLower : List Char) (ts now : Int) (scene : SceneIndexEntry)
    (d : Detector) (h : d.pendingEvents.length ≤ MAX_PENDING_EVENTS) :
    (sceneStep cfg st textLower ts now scene d).2.1.pendingEvents.length ≤
      MAX_PENDING_EVENTS := by
  unfold sceneStep
  dsimp only
  split_ifs <;>
    first
      | exact h
      | exact addEvent_len cfg st _ _ now h

theorem sceneLoop_len (cfg : Config) (st : AssistantState)
    (textLower : List Char) (ts now : Int) :
    ∀ (scenes : List SceneIndexEntry) (d : Detector),
    d.pendingEvents.length ≤ MAX_PENDING_EVENTS →
    (sceneLoop cfg st textLower ts now scenes d).2.1.pendingEvents.length ≤
      MAX_PENDING_EVENTS := by
  intro scenes
  induction scenes with
  | nil => intro d h; exact h
  | cons scene rest ih =>
      intro d h
      simp only [sceneLoop]
      exact ih _ (sceneStep_len cfg st textLower ts now scene d h)

theorem checkScene_len (cfg : Config) (st : AssistantState) (d : Detector)
    (text : String) (ts now : Int)
    (h : d.pendingEvents.length ≤ MAX_PENDING_EVENTS) :
    (checkSceneKeywordMatch cfg st d text ts now).1.pendingEvents.length ≤
      MAX_PENDING_EVENTS := by
  unfold checkSceneKeywordMatch
  exact sceneLoop_len cfg st (lowerChars text) ts now d.sceneIndex d h

theorem convGateStage_len (cfg : Config) (pm : PacingManager) (endMs now : Int)
    (d : Detector) (h : d.pendingEvents.length ≤ MAX_PENDING_EVENTS) :
    (convGateStage cfg pm endMs now d).1.pendingEvents.length ≤
      MAX_PENDING_EVENTS := by
  unfold convGateStage
  dsimp only
  split
  · exact addEvent_len cfg pm.state.assistant_state _ _ now h
  · exact h

theorem convEscStage_len (cfg : Config) (pm : PacingManager) (endMs now : Int)
    (d : Detector) (h : d.pendingEvents.length ≤ MAX_PENDING_EVENTS) :
    (convEscStage cfg pm endMs now d).1.pendingEvents.length ≤
      MAX_PENDING_EVENTS := by
  unfold convEscStage
  dsimp only
  split_ifs <;> first | exact h | exact addEvent_len cfg _ _ _ now h

theorem denGateStage_len (cfg : Config) (pm : PacingManager) (endMs now : Int)
    (d : Detector) (h : d.pendingEvents.length ≤ MAX_PENDING_EVENTS) :
    (denGateStage cfg pm endMs now d).1.pendingEvents.length ≤
      MAX_PENDING_EVENTS := by
  unfold denGateStage
  dsimp only
  split
  · exact addEvent_len cfg pm.state.assistant_state _ _ now h
  · exact h

theorem checkPacingGates_len (cfg : Config) (pm : PacingManager) (d : Detector)
    (now : Int) (h : d.pendingEvents.length ≤ MAX_PENDING_EVENTS) :
    (checkPacingGates cfg pm d now).1.pendingEvents.length ≤
      MAX_PENDING_EVENTS := by
  unfold checkPacingGates
  split
  · exact h
  · split
    · exact h
    · simp only [gateSeq]
      exact denGateStage_len cfg pm _ now _
        (convEscStage_len cfg pm _ now _ (convGateStage_len cfg pm _ now _ h))

theorem segStageP1_len (cfg : Config) (seg : Segment) (now : Int) (sys : Sys)
    (h : sys.det.pendingEvents.length ≤ MAX_PENDING_EVENTS) :
    (segStageP1 cfg seg now sys).1.det.pendingEvents.length ≤
      MAX_PENDING_EVENTS := by
  unfold segStageP1
  dsimp only
  split
  · exact addEvent_len cfg sys.pacing.state.assistant_state _ _ now h
  · exact h

theorem segStageSceneKw_len (cfg : Config) (seg : Segment) (now : Int)
    (sys : Sys) (h : sys.det.pendingEvents.length ≤ MAX_PENDING_EVENTS) :
    (segStageSceneKw cfg seg now sys).1.det.pendingEvents.length ≤
      MAX_PENDING_EVENTS := by
  unfold segStageSceneKw
  dsimp only
  split
  · exact addEvent_len cfg sys.pacing.state.assistant_state _ _ now h
  · exact h

theorem segStageActKw_len (cfg : Config) (seg : Segment) (now : Int)
    (sys : Sys) (h : sys.det.pendingEvents.length ≤ MAX_PENDING_EVENTS) :
    (segStageActKw cfg seg now sys).1.det.pendingEvents.length ≤
      MAX_PENDING_EVENTS := by
  unfold segStageActKw
  dsimp only
  split
  · exact addEvent_len cfg sys.pacing.state.assistant_state _ _ now h
  · exact h

theorem segStageNpc_len (cfg : Config) (seg : Segment) (now : Int) (sys : Sys)
    (h : sys.det.pendingEvents.length ≤ MAX_PENDING_EVENTS) :
    (segStageNpc cfg seg now sys).1.det.pendingEvents.length ≤
      MAX_PENDING_EVENTS := by
  unfold segStageNpc
  dsimp only
  split
  · exact checkNpc_len cfg sys.pacing.state.assistant_state sys.det seg.text
      seg.timestamp now h
  · exact h

theorem segStageScnIdx_len (cfg : Config) (seg : Segment) (now : Int)
    (sys : Sys) (h : sys.det.pendingEvents.length ≤ MAX_PENDING_EVENTS) :
    (segStageScnIdx cfg seg now sys).1.det.pendingEvents.length ≤
      MAX_PENDING_EVENTS := by
  unfold segStageScnIdx
  dsimp only
  split
  · exact checkScene_len cfg sys.pacing.state.assistant_state sys.det seg.text
      seg.timestamp now h
  · exact h

theorem segDetectors_len (cfg : Config) (sys : Sys) (seg : Segment) (now : Int)
    (h : sys.det.pendingEvents.length ≤ MAX_PENDING_EVENTS) :
    (segDetectors cfg sys seg now).1.det.pendingEvents.length ≤
      MAX_PENDING_EVENTS := by
  unfold segDetectors
  simp only [seqStage]
  exact segStageScnIdx_len cfg seg now _
    (segStageNpc_len cfg seg now _
      (segStageActKw_len cfg seg now _
        (segStageSceneKw_len cfg seg now _ (segStageP1_len cfg seg now sys h))))

theorem processSegment_len (cfg : Config) (env : Env) (sys : Sys)
    (seg : Segment) (now : Int)
    (h : sys.det.pendingEvents.length ≤ MAX_PENDING_EVENTS) :
    (processSegment cfg env sys seg now).1.det.pendingEvents.length ≤
      MAX_PENDING_EVENTS := by
  have hb : (segBookkeeping cfg seg now sys.det).pendingEvents.length ≤
      MAX_PENDING_EVENTS := by rw [segBookkeeping_pend]; exact h
  unfold processSegment
  dsimp only
  refine segDetectors_len cfg _ seg now ?_
  split_ifs <;> dsimp only <;>
    first
      | exact hb
      | (rw [checkAutoActive_pend]; exact hb)
      | (rw [handleActivation_det]; dsimp only; rw [checkAutoActive_pend];
         exact hb)

theorem processSegments_len (cfg : Config) (env : Env) (segs : List Segment)
    (now : Int) : ∀ sys : Sys,
    sys.det.pendingEvents.length ≤ MAX_PENDING_EVENTS →
    (processSegments cfg env sys segs now).1.det.pendingEvents.length ≤
      MAX_PENDING_EVENTS := by
  induction segs with
  | nil => intro sys h; exact h
  | cons seg rest ih =>
      intro sys h
      simp only [processSegments]
      exact ih _ (processSegment_len cfg env sys seg now h)

theorem applyGmCommand_pend (cfg : Config) (env : Env) (sys : Sys)
    (cmd : GmCommand) (now : Int) :
    (applyGmCommand cfg env sys cmd now).det.pendingEvents =
      sys.det.pendingEvents := by
  unfold applyGmCommand
  cases cmd.type <;> dsimp only
  case act =>
      split
      · split
        · rw [handleActivation_det]
        · rfl
      · rfl
  case scene =>
      split <;> split
      · rw [handleActivation_det]
      · rfl
      · rw [handleActivation_det]
      · rfl
  case spotlight => split <;> rfl
  case engagement => split <;> rfl
  case separation => split <;> rfl
  case climax => split <;> rfl
  case seed => split <;> rfl
  case wake => rw [handleActivation_det]
  case endtime =>
      split
      · rfl
      · split <;> rfl
  case npc =>
      split
      · split <;> rfl
      · rfl

theorem deferredFire_len (cfg : Config) (d : Detector) (now : Int)
    (h : d.pendingEvents.length ≤ MAX_PENDING_EVENTS) :
    (deferredFire cfg d now).1.pendingEvents.length ≤ MAX_PENDING_EVENTS := by
  unfold deferredFire
  split
  · split
    · rcases flush_pend cfg _ now with hf | hf <;> rw [hf]
      · exact h
      · exact Nat.zero_le _
    · exact h
  · exact h

theorem batchTimerFireFn_len (cfg : Config) (d : Detector) (now : Int)
    (h : d.pendingEvents.length ≤ MAX_PENDING_EVENTS) :
    (batchTimerFireFn cfg d now).1.pendingEvents.length ≤ MAX_PENDING_EVENTS := by
  unfold batchTimerFireFn
  split
  · split
    · rcases flush_pend cfg _ now with hf | hf <;> rw [hf]
      · exact h
      · exact Nat.zero_le _
    · exact h
  · exact h

theorem onGameEvent_len (cfg : Config) (env : Env) (sys : Sys)
    (eventType : String) (data : List (String × String)) (now : Int)
    (h : sys.det.pendingEvents.length ≤ MAX_PENDING_EVENTS) :
    (onGameEvent cfg env sys eventType data now).1.det.pendingEvents.length ≤
      MAX_PENDING_EVENTS := by
  unfold onGameEvent
  dsimp only
  split_ifs
  · rw [handleActivation_det] at *
    exact addEvent_len cfg _ _ _ now h
  · rw [handleActivation_det]
    exact h
  · exact addEvent_len cfg _ _ _ now h
  · exact h
  · exact h

/-- One machine step preserves the queue-capacity bound. -/
theorem step_len (cfg : Config) (env : Env) (sys : Sys) (inp : Input)
    (h : sys.det.pendingEvents.length ≤ MAX_PENDING_EVENTS) :
    (step cfg env sys inp).1.det.pendingEvents.length ≤ MAX_PENDING_EVENTS := by
  cases inp with
  | transcript segs now =>
      show ((onTranscriptUpdate cfg env sys segs now).1).det.pendingEvents.length ≤ _
      unfold onTranscriptUpdate
      dsimp only
      exact processSegments_len cfg env segs now sys h
  | gameEvent eventType data now => exact onGameEvent_len cfg env sys _ data now h
  | gmCommand cmd now =>
      show ((applyGmCommand cfg env sys cmd now).det.pendingEvents.length ≤ _)
      rw [applyGmCommand_pend]
      exact h
  | timerCheck now =>
      exact checkPacingGates_len cfg _ _ now
        (checkSilence_len cfg sys.pacing _ now
          (checkHesitation_len cfg sys.pacing.state.assistant_state sys.det now h))
  | overrunCheck now => exact checkPacingOverrun_len cfg _ sys.det _ now h
  | batchTimerExpiry now => exact batchTimerFireFn_len cfg sys.det now h
  | deferredFlushExpiry now => exact deferredFire_len cfg sys.det now h
  | setCaches npc scenes => exact h

/-- Every reachable machine state respects the queue-capacity bound. -/
theorem runSys_len (cfg : Config) (env : Env) (inputs : List Input) :
    ∀ sys : Sys, sys.det.pendingEvents.length ≤ MAX_PENDING_EVENTS →
    (runSys cfg env sys inputs).det.pendingEvents.length ≤ MAX_PENDING_EVENTS := by
  induction inputs with
  | nil => intro sys h; exact h
  | cons i rest ih =>
      intro sys h
      exact ih _ (step_len cfg env sys i h)

/-- C7: the pending-event queue never exceeds MAX_PENDING_EVENTS entries
along any run from startup; and at a full queue (state gate passed) the
scan lands on a maximal-priority entry, the new event is rejected unless
its priority number is strictly below that entry's, and otherwise that
entry is evicted and the new event admitted (sitting in the queue, or
flushed at once in the emitted batch when it is P1). -/
theorem c7_capacity_cap :
    (∀ (cfg : Config) (env : Env) (fz : List (String × String)) (t0 : Int)
        (inputs : List Input),
      (runSys cfg env (sys0 cfg fz t0) inputs).det.pendingEvents.length ≤
        MAX_PENDING_EVENTS) ∧
    (∀ (cfg : Config) (st : AssistantState) (d : Detector) (ev : TriggerEvent)
        (now : Int),
      ¬(((st == AssistantState.PREGAME || st == AssistantState.SLEEP) &&
          ev.priority != priP1) = true) →
      d.pendingEvents.length = MAX_PENDING_EVENTS →
      ∃ lowest,
        d.pendingEvents.get? (lowestPriorityIdx d.pendingEvents) = some lowest ∧
        (∀ e ∈ d.pendingEvents, e.priority ≤ lowest.priority) ∧
        (¬ ev.priority < lowest.priority →
          addEvent cfg st d ev now = (d, [])) ∧
        (ev.priority < lowest.priority →
          (addEvent cfg st d ev now).1.pendingEvents =
              (d.pendingEvents.eraseIdx (lowestPriorityIdx d.pendingEvents)) ++
                [ev] ∨
          (addEvent cfg st d ev now).2 =
              [Output.batch ⟨sortEvents
                ((d.pendingEvents.eraseIdx (lowestPriorityIdx d.pendingEvents)) ++
                  [ev]), now⟩])) := by
  constructor
  · intro cfg env fz t0 inputs
    exact runSys_len cfg env inputs _ (by exact Nat.zero_le _)
  · intro cfg st d ev now hgate hlen
    have hne : d.pendingEvents ≠ [] := by
      intro hnil
      rw [hnil] at hlen
      exact absurd hlen (by decide)
    rcases lowestPriorityIdx_spec d.pendingEvents hne with ⟨lowest, hget, hall⟩
    refine ⟨lowest, hget, hall, ?_, ?_⟩
    · intro hpr
      unfold addEvent
      rw [if_neg hgate]
      dsimp only
      rw [if_pos (le_of_eq hlen.symm), hget]
      dsimp only
      rw [if_neg hpr]
    · intro hpr
      unfold addEvent
      rw [if_neg hgate]
      dsimp only
      rw [if_pos (le_of_eq hlen.symm), hget]
      dsimp only
      rw [if_pos hpr]
      dsimp only
      by_cases hp1 : (ev.priority == priP1) = true
      · right
        rw [if_pos hp1]
        unfold flush
        dsimp only
        rw [if_neg (by simp)]
        have hex : ((d.pendingEvents.eraseIdx
            (lowestPriorityIdx d.pendingEvents)) ++ [ev]).any
              (fun e => e.priority == priP1 || e.priority == priP2) = true := by
          simp [List.any_append, hp1]
        rw [if_neg (by rw [hex]; simp)]
      · left
        rw [if_neg hp1]
        split <;> rfl

theorem c1_witness :
    0 < c1WInputs.length ∧
    (edgeOK (stateOf (runSys defaultConfig env0 (sys0 defaultConfig [] 0)
          (c1WInputs.take 0)))
        (stateOf (runSys defaultConfig env0 (sys0 defaultConfig [] 0)
          (c1WInputs.take (0 + 1)))) = true ∧
     (stateOf (runSys defaultConfig env0 (sys0 defaultConfig [] 0)
          (c1WInputs.take 0)) = AssistantState.PREGAME →
      stateOf (runSys defaultConfig env0 (sys0 defaultConfig [] 0)
          (c1WInputs.take (0 + 1))) = AssistantState.SLEEP →
      ∃ cmd now, c1WInputs.get ⟨0, by decide⟩ = Input.gmCommand cmd now ∧
        cmd.type = GmCommandType.sleep)) :=
  ⟨by decide,
   c1_transition_edges defaultConfig env0 [] 0 c1WInputs 0 (by decide)⟩

def c7Ev (p : Nat) : TriggerEvent :=
  { type := "t", priority := p, source := "s", data := [], timestamp := 0 }

def c7Det : Detector :=
  { initialDetector defaultConfig [] with
      pendingEvents := List.replicate MAX_PENDING_EVENTS (c7Ev priP4) }

theorem c7_witness :
    (¬(((AssistantState.ACTIVE == AssistantState.PREGAME ||
          AssistantState.ACTIVE == AssistantState.SLEEP) &&
        (c7Ev priP1).priority != priP1) = true) ∧
      c7Det.pendingEvents.length = MAX_PENDING_EVENTS) ∧
    (∃ lowest,
      c7Det.pendingEvents.get? (lowestPriorityIdx c7Det.pendingEvents) =
          some lowest ∧
      (∀ e ∈ c7Det.pendingEvents, e.priority ≤ lowest.priority) ∧
      (¬ (c7Ev priP1).priority < lowest.priority →
        addEvent defaultConfig AssistantState.ACTIVE c7Det (c7Ev priP1) 0 =
          (c7Det, [])) ∧
      ((c7Ev priP1).priority < lowest.priority →
        (addEvent defaultConfig AssistantState.ACTIVE c7Det (c7Ev priP1)
            0).1.pendingEvents =
            (c7Det.pendingEvents.eraseIdx
              (lowestPriorityIdx c7Det.pendingEvents)) ++ [c7Ev priP1] ∨
        (addEvent defaultConfig AssistantState.ACTIVE c7Det (c7Ev priP1) 0).2 =
            [Output.batch ⟨sortEvents ((c7Det.pendingEvents.eraseIdx
              (lowestPriorityIdx c7Det.pendingEvents)) ++ [c7Ev priP1]), 0⟩])) :=
  ⟨⟨by decide, by rfl⟩,
   c7_capacity_cap.2 defaultConfig AssistantState.ACTIVE c7Det (c7Ev priP1) 0
     (by decide) (by rfl)⟩


end Magi
